import Mathlib

/-!
# Sshwifty: configuration loader from environment variables

A shallow embedding of `application/configuration/loader_enviro.go`
(`parseEnv`, `parseJsonStringArray`, `Enviro`) together with the parts of the
Go standard library the loader calls (`os.Getenv`, `strings.HasPrefix`,
`strings.TrimSpace`, `strconv.ParseUint`, `encoding/json.Unmarshal` into a
string slice), followed by theorems about the loader.

Go strings are taken as Unicode text (Lean `String`); the indirection marker is
ASCII, so cutting 21 bytes after a successful `HasPrefix` test cuts 21
characters.  Go `error` values are represented by their message, `nil` by
`none`.  Go `int` is taken as 64 bits wide.
-/

namespace Sshwifty

/-! ## Standard library: environment and strings -/

/-- Process environment: variable name to value; an unset variable has the
empty value. -/
abbrev Env := String → String

/-- Go `os.Getenv`: the value of the variable, empty when unset.  A
zero-length key is never found. -/
def Getenv (env : Env) (key : String) : String :=
  if key.length = 0 then "" else env key

/-- Go `strings.HasPrefix`. -/
def HasPrefix (s p : String) : Bool :=
  p.data.isPrefixOf s.data

/-- Go slice expression `s[i:]` (for `i` not inside a multi-byte character). -/
def sliceFrom (s : String) (i : Nat) : String :=
  ⟨s.data.drop i⟩

/-! ## Standard library: `strconv.ParseUint` in base 10 -/

/-- The two error kinds of `strconv` (`ErrSyntax`, `ErrRange`) and the error
for a bit size outside `0..64`. -/
inductive NumError where
  | ErrSyntax
  | ErrRange
  | ErrBitSize
  deriving DecidableEq, Repr

/-- Largest `uint64`. -/
def maxUint64 : Nat := 2 ^ 64 - 1

/-- `cutoff` of `ParseUint` for base 10: the smallest number such that
`cutoff*10 > maxUint64`. -/
def cutoff10 : Nat := maxUint64 / 10 + 1

/-- The digit loop of `strconv.ParseUint(s, 10, bitSize)`, with `n` the
accumulator; `uint64` arithmetic wraps modulo `2^64`. -/
def parseUintLoop (maxVal : Nat) : List Char → Nat → Nat × Option NumError
  | [], n => (n, none)
  | c :: cs, n =>
    if 48 ≤ c.toNat ∧ c.toNat ≤ 57 then
      let d := c.toNat - 48
      if n ≥ cutoff10 then
        (maxVal, some NumError.ErrRange)
      else
        let n10 := (n * 10) % 2 ^ 64
        let n1 := (n10 + d) % 2 ^ 64
        if n1 < n10 ∨ n1 > maxVal then
          (maxVal, some NumError.ErrRange)
        else
          parseUintLoop maxVal cs n1
    else
      (0, some NumError.ErrSyntax)

/-- Go `strconv.ParseUint(s, 10, bitSize)`: the value and the error. -/
def ParseUint (s : String) (bitSize : Nat) : Nat × Option NumError :=
  if s.data = [] then (0, some NumError.ErrSyntax)
  else if bitSize > 64 then (0, some NumError.ErrBitSize)
  else
    let bits := if bitSize = 0 then 64 else bitSize
    parseUintLoop (2 ^ bits - 1) s.data 0

/-- Go conversion `int(x)` of a `uint64` (two's complement, 64 bits). -/
def intOfUint64 (x : Nat) : Int :=
  if x % 2 ^ 64 < 2 ^ 63 then ((x % 2 ^ 64 : Nat) : Int)
  else ((x % 2 ^ 64 : Nat) : Int) - 2 ^ 64

/-- Go conversion `uint16(x)` of a `uint64`. -/
def uint16OfUint64 (x : Nat) : Nat := x % 2 ^ 16

/-! ## `parseEnv` -/

/-- The indirection marker tested by `parseEnv`. -/
def renamedMarker : String := "SSHWIFTY_ENV_RENAMED:"

/-- `parseEnv` of the loader: the value of `name`, or, when that value starts
with the marker, the value of the variable named by what follows it. -/
def parseEnv (env : Env) (name : String) : String :=
  let v := Getenv env name
  if !HasPrefix v renamedMarker then v
  else Getenv env (sliceFrom v 21)

/-! ## Standard library: `encoding/json` syntax scanner

A port of the byte-level state machine of `encoding/json/scanner.go`, used by
`json.Unmarshal` (through `checkValid`) to accept or reject the whole text
before any decoding.  It is run on characters: every byte of a multi-byte
character is `>= 0x80`, so such a character is accepted inside a string literal
and rejected, at its first byte, everywhere else. -/

/-- The scanner's current step function. -/
inductive ScanStep where
  | stateBeginValueOrEmpty | stateBeginValue | stateBeginStringOrEmpty
  | stateBeginString | stateEndValue | stateEndTop
  | stateInString | stateInStringEsc
  | stateInStringEscU | stateInStringEscU1 | stateInStringEscU12 | stateInStringEscU123
  | stateNeg | state1 | state0 | stateDot | stateDot0 | stateE | stateESign | stateE0
  | stateT | stateTr | stateTru
  | stateF | stateFa | stateFal | stateFals
  | stateN | stateNu | stateNul
  | stateError
  deriving DecidableEq, Repr

/-- Entries of the scanner's parse-state stack. -/
inductive ParseState where
  | parseObjectKey | parseObjectValue | parseArrayValue
  deriving DecidableEq, Repr

/-- The `scanner` struct: step function, whether the top-level value has ended,
the stack of open composites (innermost first) and the first error. -/
structure Scanner where
  step : ScanStep
  endTop : Bool
  parseState : List ParseState
  err : Option String
  deriving DecidableEq, Repr

/-- Nesting limit of the scanner. -/
def maxNestingDepth : Nat := 10000

/-- Lower-case hexadecimal digit of `n % 16`. -/
def hexDigit (n : Nat) : Char :=
  if n % 16 < 10 then Char.ofNat (48 + n % 16) else Char.ofNat (87 + n % 16)

/-- First byte of the UTF-8 encoding of a character. -/
def leadByte (c : Char) : Nat :=
  let n := c.toNat
  if n < 0x80 then n
  else if n < 0x800 then 0xC0 + n / 64
  else if n < 0x10000 then 0xE0 + n / 4096
  else 0xF0 + n / 262144

/-- Go `quoteChar` applied to the byte `b`: the byte in single quotes, escaped
the way `strconv.Quote` escapes the character with that code. -/
def quoteByte (b : Nat) : String :=
  let body : List Char :=
    if b = 39 then [Char.ofNat 92, Char.ofNat 39]
    else if b = 34 then [Char.ofNat 34]
    else if b = 92 then [Char.ofNat 92, Char.ofNat 92]
    else if b = 7 then [Char.ofNat 92, 'a']
    else if b = 8 then [Char.ofNat 92, 'b']
    else if b = 12 then [Char.ofNat 92, 'f']
    else if b = 10 then [Char.ofNat 92, 'n']
    else if b = 13 then [Char.ofNat 92, 'r']
    else if b = 9 then [Char.ofNat 92, 't']
    else if b = 11 then [Char.ofNat 92, 'v']
    else if b < 32 ∨ b = 127 then [Char.ofNat 92, 'x', hexDigit (b / 16), hexDigit b]
    else if (128 ≤ b ∧ b ≤ 160) ∨ b = 173 then
      [Char.ofNat 92, 'u', '0', '0', hexDigit (b / 16), hexDigit b]
    else [Char.ofNat b]
  ⟨[Char.ofNat 39] ++ body ++ [Char.ofNat 39]⟩

/-- Go `quoteChar` at the first byte of the character `c`. -/
def quoteChar (c : Char) : String := quoteByte (leadByte c)

/-- Scanner method `error`: records the syntax error and moves to `stateError`. -/
def Scanner.error (s : Scanner) (c : Char) (context : String) : Scanner :=
  { s with step := ScanStep.stateError,
           err := some ("invalid character " ++ quoteChar c ++ " " ++ context) }

/-- Go `isSpace` of the scanner. -/
def isSpace (c : Char) : Bool :=
  c.toNat = 32 || c.toNat = 9 || c.toNat = 13 || c.toNat = 10

/-- Test for an ASCII decimal digit. -/
def isDigit (c : Char) : Bool := 48 ≤ c.toNat && c.toNat ≤ 57

/-- Test for a hexadecimal digit. -/
def isHex (c : Char) : Bool :=
  (48 ≤ c.toNat && c.toNat ≤ 57) || (97 ≤ c.toNat && c.toNat ≤ 102) ||
    (65 ≤ c.toNat && c.toNat ≤ 70)

/-- Scanner method `pushParseState`. -/
def Scanner.pushParseState (s : Scanner) (c : Char) (newParseState : ParseState) : Scanner :=
  let s1 := { s with parseState := newParseState :: s.parseState }
  if s1.parseState.length ≤ maxNestingDepth then s1
  else s1.error c "exceeded max depth"

/-- Scanner method `popParseState`. -/
def Scanner.popParseState (s : Scanner) : Scanner :=
  let rest := s.parseState.tail
  if rest.length = 0 then
    { s with parseState := rest, step := ScanStep.stateEndTop, endTop := true }
  else { s with parseState := rest, step := ScanStep.stateEndValue }

/-- Scanner state `stateEndTop`. -/
def stateEndTop (s : Scanner) (c : Char) : Scanner :=
  if !isSpace c then s.error c "after top-level value" else s

/-- Scanner state `stateEndValue`. -/
def stateEndValue (s : Scanner) (c : Char) : Scanner :=
  match s.parseState with
  | [] => stateEndTop { s with step := ScanStep.stateEndTop, endTop := true } c
  | ps :: rest =>
    if isSpace c then { s with step := ScanStep.stateEndValue }
    else
      match ps with
      | ParseState.parseObjectKey =>
        if c = ':' then
          { s with parseState := ParseState.parseObjectValue :: rest,
                   step := ScanStep.stateBeginValue }
        else s.error c "after object key"
      | ParseState.parseObjectValue =>
        if c = ',' then
          { s with parseState := ParseState.parseObjectKey :: rest,
                   step := ScanStep.stateBeginString }
        else if c.toNat = 125 then s.popParseState
        else s.error c "after object key:value pair"
      | ParseState.parseArrayValue =>
        if c = ',' then { s with step := ScanStep.stateBeginValue }
        else if c = ']' then s.popParseState
        else s.error c "after array element"

/-- Scanner state `stateBeginValue`. -/
def stateBeginValue (s : Scanner) (c : Char) : Scanner :=
  if isSpace c then s
  else if c.toNat = 123 then
    Scanner.pushParseState { s with step := ScanStep.stateBeginStringOrEmpty } c
      ParseState.parseObjectKey
  else if c = '[' then
    Scanner.pushParseState { s with step := ScanStep.stateBeginValueOrEmpty } c
      ParseState.parseArrayValue
  else if c.toNat = 34 then { s with step := ScanStep.stateInString }
  else if c = '-' then { s with step := ScanStep.stateNeg }
  else if c = '0' then { s with step := ScanStep.state0 }
  else if c = 't' then { s with step := ScanStep.stateT }
  else if c = 'f' then { s with step := ScanStep.stateF }
  else if c = 'n' then { s with step := ScanStep.stateN }
  else if 49 ≤ c.toNat ∧ c.toNat ≤ 57 then { s with step := ScanStep.state1 }
  else s.error c "looking for beginning of value"

/-- Scanner state `stateBeginString`. -/
def stateBeginString (s : Scanner) (c : Char) : Scanner :=
  if isSpace c then s
  else if c.toNat = 34 then { s with step := ScanStep.stateInString }
  else s.error c "looking for beginning of object key string"

/-- Scanner state `state0`. -/
def state0 (s : Scanner) (c : Char) : Scanner :=
  if c = '.' then { s with step := ScanStep.stateDot }
  else if c = 'e' ∨ c = 'E' then { s with step := ScanStep.stateE }
  else stateEndValue s c

/-- Scanner state `stateESign`. -/
def stateESign (s : Scanner) (c : Char) : Scanner :=
  if isDigit c then { s with step := ScanStep.stateE0 }
  else s.error c "in exponent of numeric literal"

/-- One letter of a literal `true`, `false` or `null`: `c` must be `want`. -/
def stateLetter (s : Scanner) (c want : Char) (next : ScanStep) (context : String) : Scanner :=
  if c = want then { s with step := next } else s.error c context

/-- One hexadecimal digit of a `\u` escape. -/
def stateHex (s : Scanner) (c : Char) (next : ScanStep) : Scanner :=
  if isHex c then { s with step := next }
  else s.error c "in \\u hexadecimal character escape"

/-- One call `s.step(s, c)`. -/
def Scanner.stepChar (s : Scanner) (c : Char) : Scanner :=
  match s.step with
  | ScanStep.stateBeginValueOrEmpty =>
    if isSpace c then s
    else if c = ']' then stateEndValue s c
    else stateBeginValue s c
  | ScanStep.stateBeginValue => stateBeginValue s c
  | ScanStep.stateBeginStringOrEmpty =>
    if isSpace c then s
    else if c.toNat = 125 then
      stateEndValue { s with parseState := ParseState.parseObjectValue :: s.parseState.tail } c
    else stateBeginString s c
  | ScanStep.stateBeginString => stateBeginString s c
  | ScanStep.stateEndValue => stateEndValue s c
  | ScanStep.stateEndTop => stateEndTop s c
  | ScanStep.stateInString =>
    if c.toNat = 34 then { s with step := ScanStep.stateEndValue }
    else if c.toNat = 92 then { s with step := ScanStep.stateInStringEsc }
    else if c.toNat < 32 then s.error c "in string literal"
    else s
  | ScanStep.stateInStringEsc =>
    if c = 'b' ∨ c = 'f' ∨ c = 'n' ∨ c = 'r' ∨ c = 't' ∨ c.toNat = 92 ∨ c = '/' ∨
        c.toNat = 34 then
      { s with step := ScanStep.stateInString }
    else if c = 'u' then { s with step := ScanStep.stateInStringEscU }
    else s.error c "in string escape code"
  | ScanStep.stateInStringEscU => stateHex s c ScanStep.stateInStringEscU1
  | ScanStep.stateInStringEscU1 => stateHex s c ScanStep.stateInStringEscU12
  | ScanStep.stateInStringEscU12 => stateHex s c ScanStep.stateInStringEscU123
  | ScanStep.stateInStringEscU123 => stateHex s c ScanStep.stateInString
  | ScanStep.stateNeg =>
    if c = '0' then { s with step := ScanStep.state0 }
    else if 49 ≤ c.toNat ∧ c.toNat ≤ 57 then { s with step := ScanStep.state1 }
    else s.error c "in numeric literal"
  | ScanStep.state1 =>
    if isDigit c then { s with step := ScanStep.state1 } else state0 s c
  | ScanStep.state0 => state0 s c
  | ScanStep.stateDot =>
    if isDigit c then { s with step := ScanStep.stateDot0 }
    else s.error c "after decimal point in numeric literal"
  | ScanStep.stateDot0 =>
    if isDigit c then s
    else if c = 'e' ∨ c = 'E' then { s with step := ScanStep.stateE }
    else stateEndValue s c
  | ScanStep.stateE =>
    if c = '+' ∨ c = '-' then { s with step := ScanStep.stateESign } else stateESign s c
  | ScanStep.stateESign => stateESign s c
  | ScanStep.stateE0 => if isDigit c then s else stateEndValue s c
  | ScanStep.stateT => stateLetter s c 'r' ScanStep.stateTr "in literal true (expecting 'r')"
  | ScanStep.stateTr => stateLetter s c 'u' ScanStep.stateTru "in literal true (expecting 'u')"
  | ScanStep.stateTru =>
    stateLetter s c 'e' ScanStep.stateEndValue "in literal true (expecting 'e')"
  | ScanStep.stateF => stateLetter s c 'a' ScanStep.stateFa "in literal false (expecting 'a')"
  | ScanStep.stateFa => stateLetter s c 'l' ScanStep.stateFal "in literal false (expecting 'l')"
  | ScanStep.stateFal => stateLetter s c 's' ScanStep.stateFals "in literal false (expecting 's')"
  | ScanStep.stateFals =>
    stateLetter s c 'e' ScanStep.stateEndValue "in literal false (expecting 'e')"
  | ScanStep.stateN => stateLetter s c 'u' ScanStep.stateNu "in literal null (expecting 'u')"
  | ScanStep.stateNu => stateLetter s c 'l' ScanStep.stateNul "in literal null (expecting 'l')"
  | ScanStep.stateNul =>
    stateLetter s c 'l' ScanStep.stateEndValue "in literal null (expecting 'l')"
  | ScanStep.stateError => s

/-- Scanner method `reset`. -/
def Scanner.reset : Scanner :=
  { step := ScanStep.stateBeginValue, endTop := false, parseState := [], err := none }

/-- Scanner method `eof`: the error reported at the end of the input, if any. -/
def Scanner.eof (s : Scanner) : Option String :=
  if s.err.isSome then s.err
  else if s.endTop then none
  else
    let s1 := s.stepChar ' '
    if s1.endTop then none
    else if s1.err.isSome then s1.err
    else some "unexpected end of JSON input"

/-- Go `checkValid`: `none` when the text is one valid JSON value, else the
message of the syntax error. -/
def checkValid (data : List Char) : Option String :=
  (data.foldl Scanner.stepChar Scanner.reset).eof

/-! ## Standard library: `json.Unmarshal` into a `[]string`

After `checkValid` has accepted the text, the decoder walks it again.  For the
target type `[]string` what it does depends only on the kind of the top-level
value and of each element of a top-level array. -/

/-- Value of a hexadecimal digit. -/
def hexVal (c : Char) : Nat :=
  if 48 ≤ c.toNat ∧ c.toNat ≤ 57 then c.toNat - 48
  else if 97 ≤ c.toNat ∧ c.toNat ≤ 102 then c.toNat - 87
  else c.toNat - 55

/-- Go `getu4` on four hexadecimal digits. -/
def getu4 (a b c d : Char) : Nat :=
  ((hexVal a * 16 + hexVal b) * 16 + hexVal c) * 16 + hexVal d

/-- The Unicode replacement character. -/
def replacementChar : Char := Char.ofNat 0xFFFD

/-- The character an escape `\c` stands for. -/
def unescape (c : Char) : Char :=
  if c = 'b' then Char.ofNat 8
  else if c = 'f' then Char.ofNat 12
  else if c = 'n' then Char.ofNat 10
  else if c = 'r' then Char.ofNat 13
  else if c = 't' then Char.ofNat 9
  else c

/-- The `\u` escape: given its four hexadecimal digits and the text after
them, the character it stands for and how much of that text belongs to it (six
characters when a second `\u` escape completes a surrogate pair, else none).
A surrogate without its partner gives the replacement character. -/
def escapeU (a b c d : Char) (rest : List Char) : Char × Nat :=
  let rr := getu4 a b c d
  if 0xD800 ≤ rr ∧ rr < 0xE000 then
    match rest with
    | bs :: u :: a2 :: b2 :: c2 :: d2 :: _ =>
      let rr1 := getu4 a2 b2 c2 d2
      if bs.toNat = 92 ∧ u = 'u' ∧ isHex a2 ∧ isHex b2 ∧ isHex c2 ∧ isHex d2 ∧
          rr < 0xDC00 ∧ 0xDC00 ≤ rr1 ∧ rr1 < 0xE000 then
        (Char.ofNat ((rr - 0xD800) * 1024 + (rr1 - 0xDC00) + 0x10000), 6)
      else (replacementChar, 0)
    | _ => (replacementChar, 0)
  else (Char.ofNat rr, 0)

/-- One escape, given the text after the backslash: the character it stands for
and the number of characters of that text it takes up. -/
def escapeAt : List Char → Char × Nat
  | [] => (replacementChar, 0)
  | e :: rest =>
    if e = 'u' then
      match rest with
      | a :: b :: c :: d :: rest1 => ((escapeU a b c d rest1).1, 5 + (escapeU a b c d rest1).2)
      | _ => (replacementChar, 1)
    else (unescape e, 1)

/-- Go `unquote` with `skip` characters still to pass over (the rest of the
escape met last). -/
def unquoteFrom : List Char → Nat → List Char
  | [], _ => []
  | _ :: rest, skip + 1 => unquoteFrom rest skip
  | c :: rest, 0 =>
    if c.toNat = 92 then (escapeAt rest).1 :: unquoteFrom rest (escapeAt rest).2
    else c :: unquoteFrom rest 0

/-- Go `unquote` on the text between the quotes of a string literal: escapes
are replaced by what they stand for. -/
def unquote (s : List Char) : List Char := unquoteFrom s 0

/-- The text of a string literal up to its closing quote, given the text after
the opening quote. -/
def stringBody : List Char → List Char
  | [] => []
  | c :: rest =>
    if c.toNat = 34 then []
    else if c.toNat = 92 then
      match rest with
      | [] => [c]
      | e :: rest1 => c :: e :: stringBody rest1
    else c :: stringBody rest

/-- The texts of the elements of an array, given the text after its opening
bracket: the text is cut at the commas that are outside every string literal
and every nested array or object, and ends at the closing bracket.  `cur` holds
the current element, reversed. -/
def splitElems : List Char → Nat → Bool → Bool → List Char → List (List Char)
  | [], _, _, _, cur => [cur.reverse]
  | c :: cs, depth, inStr, esc, cur =>
    if inStr then
      if esc then splitElems cs depth true false (c :: cur)
      else if c.toNat = 92 then splitElems cs depth true true (c :: cur)
      else if c.toNat = 34 then splitElems cs depth false false (c :: cur)
      else splitElems cs depth true false (c :: cur)
    else if c.toNat = 34 then splitElems cs depth true false (c :: cur)
    else if c = '[' ∨ c.toNat = 123 then splitElems cs (depth + 1) false false (c :: cur)
    else if c = ']' ∨ c.toNat = 125 then
      if depth = 0 then [cur.reverse]
      else splitElems cs (depth - 1) false false (c :: cur)
    else if c = ',' ∧ depth = 0 then cur.reverse :: splitElems cs 0 false false []
    else splitElems cs depth false false (c :: cur)

/-- Message of an `UnmarshalTypeError` outside a struct. -/
def unmarshalTypeError (value type : String) : String :=
  "json: cannot unmarshal " ++ value ++ " into Go value of type " ++ type

/-- Decoding one JSON value into a `string` that holds its zero value: a
string literal is stored unquoted, `null` leaves the string as it is, and any
other value leaves it as it is and saves a type error. -/
def decodeString (text : List Char) : String × Option String :=
  match text.dropWhile isSpace with
  | [] => ("", none)
  | c :: rest =>
    if c.toNat = 34 then (⟨unquote (stringBody rest)⟩, none)
    else if c = 'n' then ("", none)
    else if c = 't' ∨ c = 'f' then ("", some (unmarshalTypeError "bool" "string"))
    else if c = '[' then ("", some (unmarshalTypeError "array" "string"))
    else if c.toNat = 123 then ("", some (unmarshalTypeError "object" "string"))
    else ("", some (unmarshalTypeError "number" "string"))

/-- The first saved error (`saveError` keeps only the first one). -/
def firstError : List (Option String) → Option String
  | [] => none
  | some e :: _ => some e
  | none :: rest => firstError rest

/-- Go `json.Unmarshal(data, &r)` for `var r []string` holding `nil`: the slice
afterwards and the error.  A `nil` slice and an empty slice are both the empty
list.  A syntax error leaves `r` untouched; `null` sets it to `nil`; an array
is decoded element by element, and the first type error met is returned after
the whole array has been stored; any other value is a type error. -/
def jsonUnmarshalStrings (data : String) : List String × Option String :=
  match checkValid data.data with
  | some e => ([], some e)
  | none =>
    match data.data.dropWhile isSpace with
    | [] => ([], none)
    | c :: rest =>
      if c = '[' then
        let texts := splitElems rest 0 false false []
        let elems :=
          match texts with
          | [t] => if t.all isSpace then [] else [decodeString t]
          | _ => texts.map decodeString
        (elems.map Prod.fst, firstError (elems.map Prod.snd))
      else if c = 'n' then ([], none)
      else if c.toNat = 34 then ([], some (unmarshalTypeError "string" "[]string"))
      else if c = 't' ∨ c = 'f' then ([], some (unmarshalTypeError "bool" "[]string"))
      else if c.toNat = 123 then ([], some (unmarshalTypeError "object" "[]string"))
      else ([], some (unmarshalTypeError "number" "[]string"))

/-! ## Standard library: `strings.TrimSpace` -/

/-- Go `unicode.IsSpace`. -/
def unicodeIsSpace (c : Char) : Bool :=
  let n := c.toNat
  (9 ≤ n && n ≤ 13) || n = 32 || n = 0x85 || n = 0xA0 || n = 0x1680 ||
    (0x2000 ≤ n && n ≤ 0x200A) || n = 0x2028 || n = 0x2029 || n = 0x202F ||
    n = 0x205F || n = 0x3000

/-- Go `strings.TrimSpace`. -/
def TrimSpace (s : String) : String :=
  ⟨((s.data.dropWhile unicodeIsSpace).reverse.dropWhile unicodeIsSpace).reverse⟩

/-! ## The loader -/

/-- `parseJsonStringArray` of the loader. -/
def parseJsonStringArray (s : String) : List String × Option String :=
  jsonUnmarshalStrings s

/-- Label of the loader, `enviroTypeName`. -/
def enviroTypeName : String := "Environment Variable"

/-- A hook command: a list of strings. -/
abbrev HookCommand := List String

/-- Go `map[HookType][]HookCommand`, as the list of its entries. -/
abbrev HookTable (H : Type) := List (H × List HookCommand)

/-- The server field bag `fileCfgServer`, as far as the loader fills it. -/
structure fileCfgServer where
  ListenInterface : String
  ListenPort : Nat
  InitialTimeout : Int
  ReadTimeout : Int
  WriteTimeout : Int
  HeartbeatTimeout : Int
  ReadDelay : Int
  WriteDelay : Int
  TLSCertificateFile : String
  TLSCertificateKeyFile : String
  ServerMessage : String
  deriving DecidableEq, Repr

/-- The common field bag `fileCfgCommon`, over the hook type `H` and the raw
preset record type `R`. -/
structure fileCfgCommon (H R : Type) where
  HostName : String
  SharedKey : String
  DialTimeout : Int
  Socks5 : String
  Socks5User : String
  Socks5Password : String
  Hooks : HookTable H
  HookTimeout : Int
  Servers : List fileCfgServer
  Presets : List R
  OnlyAllowPresetRemotes : Bool
  deriving DecidableEq, Repr

/-- The `Configuration` the loader returns, over the hook type `H`, the server
type `S` and the preset type `P`; durations are in nanoseconds. -/
structure Configuration (H S P : Type) where
  HostName : String
  SharedKey : String
  DialTimeout : Int
  Socks5 : String
  Socks5User : String
  Socks5Password : String
  Hooks : HookTable H
  HookTimeout : Int
  Servers : List S
  Presets : List P
  OnlyAllowPresetRemotes : Bool
  deriving DecidableEq, Repr

/-- The zero value `Configuration{}`. -/
def Configuration.zero {H S P : Type} : Configuration H S P :=
  { HostName := "", SharedKey := "", DialTimeout := 0, Socks5 := "", Socks5User := "",
    Socks5Password := "", Hooks := [], HookTimeout := 0, Servers := [], Presets := [],
    OnlyAllowPresetRemotes := false }

/-- What the loader uses from the rest of the package: the hook type constant,
`fileCfgCommon.build`, `fileCfgServer.build`, `json.Unmarshal` into a
`fileCfgPresets` (the slice afterwards and the error) and
`fileCfgPresets.concretize`. -/
structure Externals (H R P S : Type) where
  HOOK_BEFORE_CONNECTING : H
  commonBuild : fileCfgCommon H R → fileCfgCommon H R × Option String
  serverBuild : fileCfgServer → S
  unmarshalPresets : String → List R × Option String
  concretize : List R → List P × Option String

/-- Go `time.Second` in nanoseconds. -/
def Second : Int := 1000000000

/-- Go `time.Duration(x) * time.Second`: a product of signed 64-bit integers,
wrapping on overflow. -/
def secondsToDuration (x : Int) : Int :=
  (x * Second + 2 ^ 63) % 2 ^ 64 - 2 ^ 63

/-- Lines 58-68 of `Enviro`: the hook table and the decode error, with
`hookType` the constant `HOOK_BEFORE_CONNECTING`. -/
def enviroHooks {H : Type} (hookType : H) (env : Env) : HookTable H × Option String :=
  let h := parseEnv env "SSHWIFTY_HOOK_BEFORE_CONNECTING"
  if h.length > 0 then
    match parseJsonStringArray h with
    | (_, some err) => ([], some err)
    | (hookBeforeConnecting, none) => ([(hookType, [hookBeforeConnecting])], none)
  else ([], none)

/-- Lines 53-56 and 69-82 of `Enviro`: the common field bag given to `build`. -/
def enviroCommon {H R : Type} (env : Env) (hooks : HookTable H) : fileCfgCommon H R :=
  let dialTimeout := (ParseUint (parseEnv env "SSHWIFTY_DIALTIMEOUT") 32).1
  let hookExecTimeout := (ParseUint (parseEnv env "SSHWIFTY_HOOKTIMEOUT") 32).1
  { HostName := parseEnv env "SSHWIFTY_HOSTNAME",
    SharedKey := parseEnv env "SSHWIFTY_SHAREDKEY",
    DialTimeout := intOfUint64 dialTimeout,
    Socks5 := parseEnv env "SSHWIFTY_SOCKS5",
    Socks5User := parseEnv env "SSHWIFTY_SOCKS5_USER",
    Socks5Password := parseEnv env "SSHWIFTY_SOCKS5_PASSWORD",
    Hooks := hooks,
    HookTimeout := intOfUint64 hookExecTimeout,
    Servers := [],
    Presets := [],
    OnlyAllowPresetRemotes :=
      decide ((parseEnv env "SSHWIFTY_ONLYALLOWPRESETREMOTES").length > 0) }

/-- Lines 89-124 of `Enviro`: the server field bag. -/
def enviroServer (env : Env) : fileCfgServer :=
  let listenIface := parseEnv env "SSHWIFTY_LISTENINTERFACE"
  let listenPort := (ParseUint (parseEnv env "SSHWIFTY_LISTENPORT") 16).1
  let initialTimeout := (ParseUint (parseEnv env "SSHWIFTY_INITIALTIMEOUT") 32).1
  let readTimeout := (ParseUint (parseEnv env "SSHWIFTY_READTIMEOUT") 32).1
  let writeTimeout := (ParseUint (parseEnv env "SSHWIFTY_WRITETIMEOUT") 32).1
  let heartbeatTimeout := (ParseUint (parseEnv env "SSHWIFTY_HEARTBEATTIMEOUT") 32).1
  let readDelay := (ParseUint (parseEnv env "SSHWIFTY_READDELAY") 32).1
  let writeDelay := (ParseUint (parseEnv env "SSHWIFTY_WRITEELAY") 32).1
  { ListenInterface := listenIface,
    ListenPort := uint16OfUint64 listenPort,
    InitialTimeout := intOfUint64 initialTimeout,
    ReadTimeout := intOfUint64 readTimeout,
    WriteTimeout := intOfUint64 writeTimeout,
    HeartbeatTimeout := intOfUint64 heartbeatTimeout,
    ReadDelay := intOfUint64 readDelay,
    WriteDelay := intOfUint64 writeDelay,
    TLSCertificateFile := parseEnv env "SSHWIFTY_TLSCERTIFICATEFILE",
    TLSCertificateKeyFile := parseEnv env "SSHWIFTY_TLSCERTIFICATEKEYFILE",
    ServerMessage := parseEnv env "SSHWIFTY_SERVERMESSAGE" }

/-- Lines 126-136 of `Enviro`: the raw presets and the decode error. -/
def enviroPresets {H R P S : Type} (ext : Externals H R P S) (env : Env) :
    List R × Option String :=
  let presetStr := TrimSpace (parseEnv env "SSHWIFTY_PRESETS")
  if presetStr.length > 0 then ext.unmarshalPresets presetStr
  else ([], none)

/-- Lines 145-157 of `Enviro`: the composed `Configuration`. -/
def enviroCompose {H R P S : Type} (ext : Externals H R P S) (cfg : fileCfgCommon H R)
    (cfgSer : fileCfgServer) (concretizePresets : List P) : Configuration H S P :=
  { HostName := cfg.HostName,
    SharedKey := cfg.SharedKey,
    DialTimeout := secondsToDuration cfg.DialTimeout,
    Socks5 := cfg.Socks5,
    Socks5User := cfg.Socks5User,
    Socks5Password := cfg.Socks5Password,
    Hooks := cfg.Hooks,
    HookTimeout := secondsToDuration cfg.HookTimeout,
    Servers := [ext.serverBuild cfgSer],
    Presets := concretizePresets,
    OnlyAllowPresetRemotes := cfg.OnlyAllowPresetRemotes }

/-- Lines 138-157 of `Enviro`: concretization of the presets and the result. -/
def enviroFinish {H R P S : Type} (ext : Externals H R P S) (cfg : fileCfgCommon H R)
    (cfgSer : fileCfgServer) (presets : List R) :
    String × Configuration H S P × Option String :=
  match ext.concretize presets with
  | (_, some err) =>
    (enviroTypeName, Configuration.zero, some ("unable to parse Preset data: " ++ err))
  | (concretizePresets, none) =>
    (enviroTypeName, enviroCompose ext cfg cfgSer concretizePresets, none)

/-- The loader returned by `Enviro()`, applied to the environment: the source
label, the `Configuration` and the error.  The log line is not modelled. -/
def Enviro {H R P S : Type} (ext : Externals H R P S) (env : Env) :
    String × Configuration H S P × Option String :=
  match enviroHooks ext.HOOK_BEFORE_CONNECTING env with
  | (_, some err) =>
    ("", Configuration.zero,
      some ("Unable to parse SSHWIFTY_HOOK_BEFORE_CONNECTING: " ++ err))
  | (hooks, none) =>
    match ext.commonBuild (enviroCommon env hooks) with
    | (_, some cfgErr) =>
      (enviroTypeName, Configuration.zero,
        some ("failed to build the configuration: " ++ cfgErr))
    | (cfg, none) =>
      let cfgSer := enviroServer env
      match enviroPresets ext env with
      | (_, some jErr) =>
        (enviroTypeName, Configuration.zero, some ("invalid \"SSHWIFTY_PRESETS\": " ++ jErr))
      | (presets, none) => enviroFinish ext cfg cfgSer presets

/-! ## Specification-side notions for the numeric variables -/

/-- Decimal value of a run of digits, continuing from `n`. -/
def decimalFrom (n : Nat) (cs : List Char) : Nat :=
  cs.foldl (fun m c => m * 10 + (c.toNat - 48)) n

/-- Decimal value of a run of digits. -/
def decimalValue (cs : List Char) : Nat := decimalFrom 0 cs

/-- A base-10 unsigned numeral: one or more ASCII digits and nothing else. -/
def isDecimalNumeral (s : String) : Bool :=
  !s.data.isEmpty && s.data.all isDigit

/-- The digits a text starts with. -/
def leadingDigits (s : String) : List Char := s.data.takeWhile isDigit

/-- The integer `v` obtained from the text `s` at a bit width: the decimal
value of a numeral within the width; the largest value of the width when the
digits the text starts with already spell a number beyond the width; zero
otherwise. -/
def CoercedFrom (bits : Nat) (s : String) (v : Nat) : Prop :=
  (isDecimalNumeral s = true → decimalValue s.data < 2 ^ bits → v = decimalValue s.data) ∧
  (2 ^ bits ≤ decimalValue (leadingDigits s) → v = 2 ^ bits - 1) ∧
  (isDecimalNumeral s = false → decimalValue (leadingDigits s) < 2 ^ bits → v = 0)

/-! ## Sample collaborators and environments -/

/-- The environment given by a list of bindings; every other variable is unset. -/
def envOf (bindings : List (String × String)) : Env :=
  fun n => match bindings.lookup n with
    | some v => v
    | none => ""

/-- A sample decoder of preset records, a raw record being the text of one
element of the top-level array: syntax errors are those of `checkValid`, `null`
gives no record, and a value that is no array is a type error. -/
def sampleUnmarshalPresets (s : String) : List String × Option String :=
  match checkValid s.data with
  | some e => ([], some e)
  | none =>
    match s.data.dropWhile isSpace with
    | [] => ([], none)
    | c :: rest =>
      if c = '[' then
        match splitElems rest 0 false false [] with
        | [t] => (if t.all isSpace then [] else [⟨t⟩], none)
        | ts => (ts.map String.mk, none)
      else if c = 'n' then ([], none)
      else ([], some (unmarshalTypeError "value" "configuration.fileCfgPresets"))

/-- Sample collaborators, to run the loader on concrete environments: both
builders return the bag they are given, and concretization returns the records
it is given. -/
def sampleExternals : Externals String String String fileCfgServer :=
  { HOOK_BEFORE_CONNECTING := "HOOK_BEFORE_CONNECTING",
    commonBuild := fun c => (c, none),
    serverBuild := fun c => c,
    unmarshalPresets := sampleUnmarshalPresets,
    concretize := fun rs => (rs, none) }

/-- Sample collaborators that read the environment: a raw preset record is the
name of a variable (the presets text is a JSON array of strings), and
concretization resolves each record to the value of the variable it names. -/
def referenceExternals (env : Env) : Externals String String String fileCfgServer :=
  { HOOK_BEFORE_CONNECTING := "HOOK_BEFORE_CONNECTING",
    commonBuild := fun c => (c, none),
    serverBuild := fun c => c,
    unmarshalPresets := jsonUnmarshalStrings,
    concretize := fun rs => (rs.map (Getenv env), none) }

/-- Sample collaborators whose common build step fails. -/
def failingBuildExternals : Externals String String String fileCfgServer :=
  { HOOK_BEFORE_CONNECTING := "HOOK_BEFORE_CONNECTING",
    commonBuild := fun c => (c, some "no shared key"),
    serverBuild := fun c => c,
    unmarshalPresets := sampleUnmarshalPresets,
    concretize := fun rs => (rs, none) }

/-- Sample collaborators whose concretization fails. -/
def failingConcretizeExternals : Externals String String String fileCfgServer :=
  { HOOK_BEFORE_CONNECTING := "HOOK_BEFORE_CONNECTING",
    commonBuild := fun c => (c, none),
    serverBuild := fun c => c,
    unmarshalPresets := sampleUnmarshalPresets,
    concretize := fun _ => ([], some "no host") }

end Sshwifty

namespace Sshwifty

/-! ## The standard library models on sample inputs -/

theorem ParseUint_samples :
    ParseUint "8080" 16 = (8080, none) ∧
    ParseUint "007" 16 = (7, none) ∧
    ParseUint "65535" 16 = (65535, none) ∧
    ParseUint "65536" 16 = (65535, some NumError.ErrRange) ∧
    ParseUint "70000" 16 = (65535, some NumError.ErrRange) ∧
    ParseUint "70000x" 16 = (65535, some NumError.ErrRange) ∧
    ParseUint "abc" 16 = (0, some NumError.ErrSyntax) ∧
    ParseUint "+5" 16 = (0, some NumError.ErrSyntax) ∧
    ParseUint "" 16 = (0, some NumError.ErrSyntax) ∧
    ParseUint "4294967295" 32 = (4294967295, none) ∧
    ParseUint "4294967296" 32 = (4294967295, some NumError.ErrRange) := by
  decide

theorem checkValid_samples :
    checkValid "null".data = none ∧
    checkValid "[1]".data = none ∧
    checkValid "[\"a\",\"b\"]".data = none ∧
    checkValid "\x7b\x7d".data = none ∧
    checkValid "[\x7b\"id\":\"x\"\x7d]".data = none ∧
    checkValid "-1.5e+3".data = none ∧
    checkValid "not-json".data =
      some "invalid character 'o' in literal null (expecting 'u')" ∧
    checkValid " ".data = some "unexpected end of JSON input" ∧
    checkValid "[1,]".data = some "invalid character ']' looking for beginning of value" ∧
    checkValid "-".data = some "invalid character ' ' in numeric literal" ∧
    checkValid "[null] x".data = some "invalid character 'x' after top-level value" ∧
    checkValid "[\"a\" \"b\"]".data = some "invalid character '\"' after array element" := by
  decide

theorem jsonUnmarshalStrings_samples :
    jsonUnmarshalStrings "null" = ([], none) ∧
    jsonUnmarshalStrings "[]" = ([], none) ∧
    jsonUnmarshalStrings "[null]" = ([""], none) ∧
    jsonUnmarshalStrings "[\"a\",\"b\"]" = (["a", "b"], none) ∧
    jsonUnmarshalStrings "[1]" =
      ([""], some "json: cannot unmarshal number into Go value of type string") ∧
    jsonUnmarshalStrings "\x7b\x7d" =
      ([], some "json: cannot unmarshal object into Go value of type []string") ∧
    jsonUnmarshalStrings "\"a\"" =
      ([], some "json: cannot unmarshal string into Go value of type []string") ∧
    jsonUnmarshalStrings " [ \"a,]\\\"\" , [1,\"x\"], \"\\u00e9\\ud83d\\ude00\\n\" ] " =
      (["a,]\"", "", "é😀\n"],
        some "json: cannot unmarshal array into Go value of type string") := by
  decide

theorem TrimSpace_samples :
    TrimSpace "  \t a b \n" = "a b" ∧ TrimSpace "" = "" ∧ TrimSpace " \n " = "" := by
  decide

/-! ## Lemmas on `ParseUint` -/

theorem decimalFrom_cons (n : Nat) (c : Char) (cs : List Char) :
    decimalFrom n (c :: cs) = decimalFrom (n * 10 + (c.toNat - 48)) cs := rfl

theorem le_decimalFrom (cs : List Char) : ∀ n : Nat, n ≤ decimalFrom n cs := by
  induction cs with
  | nil => intro n; exact Nat.le_refl n
  | cons c cs ih =>
    intro n
    rw [decimalFrom_cons]
    exact Nat.le_trans (by omega) (ih _)

/-- The digit loop, for a width of at most 32 bits and an accumulator within
the width: the 64-bit overflow tests never fire. -/
theorem parseUintLoop_value (maxVal : Nat) (hmax : maxVal < 2 ^ 32) (cs : List Char) :
    ∀ n : Nat, n ≤ maxVal →
      (parseUintLoop maxVal cs n).1 =
        if cs.all isDigit = true ∧ decimalFrom n cs ≤ maxVal then decimalFrom n cs
        else if maxVal < decimalFrom n (cs.takeWhile isDigit) then maxVal
        else 0 := by
  induction cs with
  | nil =>
    intro n hn
    simp [parseUintLoop, decimalFrom, hn]
  | cons c cs ih =>
    intro n hn
    have hpow : (2 : Nat) ^ 32 = 4294967296 := by norm_num
    have hpow64 : (2 : Nat) ^ 64 = 18446744073709551616 := by norm_num
    by_cases hd : 48 ≤ c.toNat ∧ c.toNat ≤ 57
    · have hdig : isDigit c = true := by simp [isDigit, hd.1, hd.2]
      have hcut : ¬ (n ≥ cutoff10) := by
        have : cutoff10 = 1844674407370955162 := by decide
        omega
      have h10 : (n * 10) % 18446744073709551616 = n * 10 := Nat.mod_eq_of_lt (by omega)
      have h1 : (n * 10 + (c.toNat - 48)) % 18446744073709551616 = n * 10 + (c.toNat - 48) :=
        Nat.mod_eq_of_lt (by omega)
      have hlt : ¬ (n * 10 + (c.toNat - 48) < n * 10) := by omega
      by_cases hov : n * 10 + (c.toNat - 48) > maxVal
      · have hge := le_decimalFrom cs (n * 10 + (c.toNat - 48))
        have hge2 := le_decimalFrom (cs.takeWhile isDigit) (n * 10 + (c.toNat - 48))
        have hnot : ¬ (decimalFrom (n * 10 + (c.toNat - 48)) cs ≤ maxVal) := by omega
        have hbig : maxVal < decimalFrom (n * 10 + (c.toNat - 48)) (cs.takeWhile isDigit) := by
          omega
        simp [parseUintLoop, hd, hcut, h10, h1, hov, hdig, List.takeWhile_cons,
          decimalFrom_cons, hnot, hbig]
      · have hle : n * 10 + (c.toNat - 48) ≤ maxVal := by omega
        have hrec := ih _ hle
        simp only [parseUintLoop, hpow64, hd, hcut, h10, h1, hlt, hov, and_self, if_true,
          if_false, or_self, List.all_cons, hdig, Bool.true_and, List.takeWhile_cons,
          decimalFrom_cons]
        exact hrec
    · have hdig : isDigit c = false := by
        simp only [isDigit, Bool.and_eq_false_iff, decide_eq_false_iff_not]
        omega
      have hnlt : ¬ maxVal < n := by omega
      simp [parseUintLoop, hd, hdig, List.takeWhile_cons, decimalFrom, hnlt]

/-- The value `ParseUint` returns at a width of 1 to 32 bits. -/
theorem ParseUint_value (s : String) (bits : Nat) (h0 : 0 < bits) (h32 : bits ≤ 32) :
    (ParseUint s bits).1 =
      if isDecimalNumeral s = true ∧ decimalValue s.data < 2 ^ bits then decimalValue s.data
      else if 2 ^ bits ≤ decimalValue (leadingDigits s) then 2 ^ bits - 1
      else 0 := by
  have hpos : 0 < 2 ^ bits := Nat.two_pow_pos bits
  have hle : 2 ^ bits ≤ 2 ^ 32 := Nat.pow_le_pow_right (by norm_num) h32
  by_cases hs : s.data = []
  · simp [ParseUint, hs, isDecimalNumeral, leadingDigits, decimalValue, decimalFrom]
  · have hb : ¬ bits > 64 := by omega
    have hb0 : ¬ bits = 0 := by omega
    have hloop := parseUintLoop_value (2 ^ bits - 1) (by omega) s.data 0 (Nat.zero_le _)
    have hemp : s.data.isEmpty = false := by
      cases hds : s.data with
      | nil => exact absurd hds hs
      | cons a l => rfl
    simp only [ParseUint, hs, hb, hb0, if_false, hloop, isDecimalNumeral, hemp, Bool.not_false,
      Bool.true_and, decimalValue, leadingDigits]
    have e1 : ∀ x : Nat, x ≤ 2 ^ bits - 1 ↔ x < 2 ^ bits := fun x => by omega
    have e2 : ∀ x : Nat, 2 ^ bits - 1 < x ↔ 2 ^ bits ≤ x := fun x => by omega
    simp only [e1, e2]

/-- The value `ParseUint` returns at a width of 1 to 32 bits, by cases on the text. -/
theorem ParseUint_coerced (s : String) (bits : Nat) (h0 : 0 < bits) (h32 : bits ≤ 32) :
    CoercedFrom bits s (ParseUint s bits).1 := by
  have hv := ParseUint_value s bits h0 h32
  refine ⟨?_, ?_, ?_⟩
  · intro hn hlt
    rw [hv, if_pos ⟨hn, hlt⟩]
  · intro hge
    have hnot : ¬ (isDecimalNumeral s = true ∧ decimalValue s.data < 2 ^ bits) := by
      rintro ⟨hn, hlt⟩
      have hall : s.data.all isDigit = true := by
        simp only [isDecimalNumeral, Bool.and_eq_true] at hn
        exact hn.2
      have : leadingDigits s = s.data := by
        unfold leadingDigits
        rw [List.takeWhile_eq_self_iff]
        intro c hc
        exact List.all_eq_true.mp hall c hc
      rw [this] at hge
      omega
    rw [hv, if_neg hnot, if_pos hge]
  · intro hn hlt
    have hnot : ¬ (isDecimalNumeral s = true ∧ decimalValue s.data < 2 ^ bits) := by
      rintro ⟨hn1, _⟩
      rw [hn] at hn1
      exact Bool.noConfusion hn1
    rw [hv, if_neg hnot, if_neg (by omega)]

/-- The value `ParseUint` returns at a width of 1 to 32 bits fits the width. -/
theorem ParseUint_lt (s : String) (bits : Nat) (h0 : 0 < bits) (h32 : bits ≤ 32) :
    (ParseUint s bits).1 < 2 ^ bits := by
  have hpos : 0 < 2 ^ bits := Nat.two_pow_pos bits
  rw [ParseUint_value s bits h0 h32]
  split
  · rename_i h; exact h.2
  · split <;> omega

theorem intOfUint64_of_lt (x : Nat) (h : x < 2 ^ 32) : intOfUint64 x = (x : Int) := by
  have h64 : x % 2 ^ 64 = x := Nat.mod_eq_of_lt (by omega)
  have h63 : x < 2 ^ 63 := by omega
  unfold intOfUint64
  rw [h64, if_pos h63]

theorem uint16OfUint64_of_lt (x : Nat) (h : x < 2 ^ 16) : uint16OfUint64 x = x :=
  Nat.mod_eq_of_lt h

/-! ## Lemmas on strings and `parseEnv` -/

theorem length_pos_iff_ne_empty (s : String) : s.length > 0 ↔ s ≠ "" := by
  constructor
  · intro h he
    rw [he] at h
    exact Nat.lt_irrefl 0 h
  · intro h
    cases s with
    | mk d =>
      cases d with
      | nil => exact absurd rfl h
      | cons a l => exact Nat.succ_pos _

theorem hasPrefix_iff (v p : String) : HasPrefix v p = true ↔ ∃ t : String, v = p ++ t := by
  unfold HasPrefix
  rw [List.isPrefixOf_iff_prefix]
  constructor
  · rintro ⟨t, ht⟩
    refine ⟨⟨t⟩, ?_⟩
    apply String.ext
    rw [String.data_append, ht]
  · rintro ⟨t, rfl⟩
    exact ⟨t.data, by rw [String.data_append]⟩

theorem sliceFrom_append (p t : String) : sliceFrom (p ++ t) p.length = t := by
  apply String.ext
  show ((p ++ t).data.drop p.data.length) = t.data
  rw [String.data_append, List.drop_left]

theorem renamedMarker_length : renamedMarker.length = 21 := by decide

theorem parseEnv_of_marker (env : Env) (n t : String)
    (h : Getenv env n = renamedMarker ++ t) : parseEnv env n = Getenv env t := by
  have hp : HasPrefix (Getenv env n) renamedMarker = true := (hasPrefix_iff _ _).mpr ⟨t, h⟩
  have hs : sliceFrom (Getenv env n) 21 = t := by
    rw [h, ← renamedMarker_length]
    exact sliceFrom_append _ _
  simp only [parseEnv, hp, hs, Bool.not_true, Bool.false_eq_true, if_false]

theorem parseEnv_of_not_marker (env : Env) (n : String)
    (h : ∀ t : String, Getenv env n ≠ renamedMarker ++ t) : parseEnv env n = Getenv env n := by
  have hp : HasPrefix (Getenv env n) renamedMarker = false := by
    cases hc : HasPrefix (Getenv env n) renamedMarker with
    | false => rfl
    | true =>
      obtain ⟨t, ht⟩ := (hasPrefix_iff _ _).mp hc
      exact absurd ht (h t)
  simp only [parseEnv, hp, Bool.not_false, if_true]

theorem Getenv_empty_key (env : Env) : Getenv env "" = "" := by
  simp [Getenv]

theorem empty_ne_marker_append (t : String) : ("" : String) ≠ renamedMarker ++ t := by
  intro h
  have hd := congrArg String.length h
  rw [String.length_append, renamedMarker_length] at hd
  have : ("" : String).length = 0 := rfl
  omega

/-! ## Theorems about the loader -/

/-- C2: `parseEnv` follows exactly one hop.  When the value of `n` is the
21-character marker followed by a text `t`, the result is the raw value of the
variable named `t`, whatever that value is; otherwise it is the value of `n`.
The function is total, and an absent `n`, an empty target name and an absent
target all give the empty string.  The marker is 21 ASCII characters, so when
the test for it succeeds the slice expression is within bounds and cuts the
value right after the marker. -/
theorem parseEnv_one_hop (env : Env) (n : String) :
    (∀ t : String, Getenv env n = renamedMarker ++ t → parseEnv env n = Getenv env t) ∧
    ((∀ t : String, Getenv env n ≠ renamedMarker ++ t) → parseEnv env n = Getenv env n) ∧
    (Getenv env n = "" → parseEnv env n = "") ∧
    (Getenv env n = renamedMarker → parseEnv env n = "") ∧
    (∀ t : String, Getenv env n = renamedMarker ++ t → Getenv env t = "" →
      parseEnv env n = "") ∧
    renamedMarker.length = 21 ∧
    renamedMarker.data.all (fun c => decide (c.toNat < 128)) = true ∧
    (HasPrefix (Getenv env n) renamedMarker = true →
      21 ≤ (Getenv env n).length ∧
      sliceFrom (Getenv env n) 21 = ⟨(Getenv env n).data.drop renamedMarker.length⟩ ∧
      Getenv env n = renamedMarker ++ sliceFrom (Getenv env n) 21) := by
  refine ⟨fun t h => parseEnv_of_marker env n t h, parseEnv_of_not_marker env n, ?_, ?_, ?_,
    renamedMarker_length, by decide, ?_⟩
  rotate_right
  · intro hp
    obtain ⟨t, ht⟩ := (hasPrefix_iff _ _).mp hp
    have hs : sliceFrom (Getenv env n) 21 = t := by
      rw [ht, ← renamedMarker_length]
      exact sliceFrom_append _ _
    refine ⟨?_, rfl, by rw [hs]; exact ht⟩
    rw [ht, String.length_append, renamedMarker_length]
    exact Nat.le_add_right _ _
  · intro h
    rw [parseEnv_of_not_marker env n, h]
    intro t
    rw [h]
    exact empty_ne_marker_append t
  · intro h
    have h1 : Getenv env n = renamedMarker ++ "" := by rw [h]; rfl
    rw [parseEnv_of_marker env n "" h1]
    exact Getenv_empty_key env
  · intro t h ht
    rw [parseEnv_of_marker env n t h, ht]

/-- C1 (amended): each numeric variable reaches its field bag as the integer
`ParseUint` returns for the resolved text, the error being dropped: the decimal
value of a base-10 numeral within the bit width (16 bits for the port, 32 bits
for the timeouts and the read delay), the largest value of the width when the
digits the text starts with spell a number beyond the width, and zero for any
other text (absent, empty, not starting like an over-wide numeral). -/
theorem numeric_variables_coerced {H R : Type} (env : Env) (hooks : HookTable H) :
    (∃ v : Nat, CoercedFrom 16 (parseEnv env "SSHWIFTY_LISTENPORT") v ∧
      (enviroServer env).ListenPort = v) ∧
    (∃ v : Nat, CoercedFrom 32 (parseEnv env "SSHWIFTY_DIALTIMEOUT") v ∧
      (enviroCommon env hooks : fileCfgCommon H R).DialTimeout = (v : Int)) ∧
    (∃ v : Nat, CoercedFrom 32 (parseEnv env "SSHWIFTY_HOOKTIMEOUT") v ∧
      (enviroCommon env hooks : fileCfgCommon H R).HookTimeout = (v : Int)) ∧
    (∃ v : Nat, CoercedFrom 32 (parseEnv env "SSHWIFTY_INITIALTIMEOUT") v ∧
      (enviroServer env).InitialTimeout = (v : Int)) ∧
    (∃ v : Nat, CoercedFrom 32 (parseEnv env "SSHWIFTY_READTIMEOUT") v ∧
      (enviroServer env).ReadTimeout = (v : Int)) ∧
    (∃ v : Nat, CoercedFrom 32 (parseEnv env "SSHWIFTY_WRITETIMEOUT") v ∧
      (enviroServer env).WriteTimeout = (v : Int)) ∧
    (∃ v : Nat, CoercedFrom 32 (parseEnv env "SSHWIFTY_HEARTBEATTIMEOUT") v ∧
      (enviroServer env).HeartbeatTimeout = (v : Int)) ∧
    (∃ v : Nat, CoercedFrom 32 (parseEnv env "SSHWIFTY_READDELAY") v ∧
      (enviroServer env).ReadDelay = (v : Int)) ∧
    (parseEnv env "SSHWIFTY_LISTENPORT" = "8080" → (enviroServer env).ListenPort = 8080) ∧
    (parseEnv env "SSHWIFTY_LISTENPORT" = "abc" → (enviroServer env).ListenPort = 0) ∧
    (parseEnv env "SSHWIFTY_LISTENPORT" = "70000" → (enviroServer env).ListenPort = 65535) := by
  have h32 : ∀ s : String, ∃ v : Nat, CoercedFrom 32 s v ∧
      intOfUint64 (ParseUint s 32).1 = (v : Int) := fun s =>
    ⟨_, ParseUint_coerced s 32 (by norm_num) (by norm_num),
      intOfUint64_of_lt _ (ParseUint_lt s 32 (by norm_num) (by norm_num))⟩
  refine ⟨⟨_, ParseUint_coerced _ 16 (by norm_num) (by norm_num),
      uint16OfUint64_of_lt _ (ParseUint_lt _ 16 (by norm_num) (by norm_num))⟩,
    h32 _, h32 _, h32 _, h32 _, h32 _, h32 _, h32 _, ?_, ?_, ?_⟩
  · intro h
    show uint16OfUint64 (ParseUint (parseEnv env "SSHWIFTY_LISTENPORT") 16).1 = 8080
    rw [h]
    decide
  · intro h
    show uint16OfUint64 (ParseUint (parseEnv env "SSHWIFTY_LISTENPORT") 16).1 = 0
    rw [h]
    decide
  · intro h
    show uint16OfUint64 (ParseUint (parseEnv env "SSHWIFTY_LISTENPORT") 16).1 = 65535
    rw [h]
    decide

/-- C1, as stated, fails: with `SSHWIFTY_LISTENPORT=70000` the port handed to
the server field bag is 65535, not 0. -/
theorem listenPort_70000_not_zero :
    (enviroServer (fun n => if n = "SSHWIFTY_LISTENPORT" then "70000" else "")).ListenPort
        = 65535 ∧
    (enviroServer (fun n => if n = "SSHWIFTY_LISTENPORT" then "70000" else "")).ListenPort
        ≠ 0 := by
  decide

/-- C4 (amended): the preset-restriction flag handed to the common field bag is
true exactly when the resolved value of `SSHWIFTY_ONLYALLOWPRESETREMOTES` (the
value after the one-hop indirection) is non-empty, whatever it is, `false`
included; for a value that does not begin with the marker that is exactly when
the variable is set to a non-empty string. -/
theorem onlyAllowPresetRemotes_flag {H R : Type} (env : Env) (hooks : HookTable H) :
    ((enviroCommon env hooks : fileCfgCommon H R).OnlyAllowPresetRemotes = true ↔
      parseEnv env "SSHWIFTY_ONLYALLOWPRESETREMOTES" ≠ "") ∧
    ((∀ t : String, Getenv env "SSHWIFTY_ONLYALLOWPRESETREMOTES" ≠ renamedMarker ++ t) →
      ((enviroCommon env hooks : fileCfgCommon H R).OnlyAllowPresetRemotes = true ↔
        env "SSHWIFTY_ONLYALLOWPRESETREMOTES" ≠ "")) ∧
    (env "SSHWIFTY_ONLYALLOWPRESETREMOTES" = "false" →
      (enviroCommon env hooks : fileCfgCommon H R).OnlyAllowPresetRemotes = true) ∧
    (env "SSHWIFTY_ONLYALLOWPRESETREMOTES" = "" →
      (enviroCommon env hooks : fileCfgCommon H R).OnlyAllowPresetRemotes = false) := by
  have hflag : (enviroCommon env hooks : fileCfgCommon H R).OnlyAllowPresetRemotes = true ↔
      parseEnv env "SSHWIFTY_ONLYALLOWPRESETREMOTES" ≠ "" := by
    show decide ((parseEnv env "SSHWIFTY_ONLYALLOWPRESETREMOTES").length > 0) = true ↔ _
    rw [decide_eq_true_iff]
    exact length_pos_iff_ne_empty _
  have hget : Getenv env "SSHWIFTY_ONLYALLOWPRESETREMOTES"
      = env "SSHWIFTY_ONLYALLOWPRESETREMOTES" := by
    unfold Getenv
    rw [if_neg (by decide)]
  refine ⟨hflag, ?_, ?_, ?_⟩
  · intro h
    rw [hflag, parseEnv_of_not_marker env _ h, hget]
  · intro h
    rw [hflag, parseEnv_of_not_marker env _ ?_, hget, h]
    · decide
    · intro t
      rw [hget, h]
      intro he
      have hp : HasPrefix "false" renamedMarker = true := (hasPrefix_iff _ _).mpr ⟨t, he⟩
      exact absurd hp (by decide)
  · intro h
    have hne : ¬ ((enviroCommon env hooks : fileCfgCommon H R).OnlyAllowPresetRemotes = true) := by
      rw [hflag, parseEnv_of_not_marker env _ ?_, hget, h]
      · exact fun hh => hh rfl
      · intro t
        rw [hget, h]
        exact empty_ne_marker_append t
    exact Bool.eq_false_iff.mpr hne

/-- C4, as stated, fails: a non-empty value that begins with the indirection
marker and names an unset variable gives the flag false. -/
theorem onlyAllowPresetRemotes_marker_unset_target :
    (fun n : String =>
        if n = "SSHWIFTY_ONLYALLOWPRESETREMOTES" then "SSHWIFTY_ENV_RENAMED:SSHWIFTY_UNSET"
        else "") "SSHWIFTY_ONLYALLOWPRESETREMOTES" ≠ "" ∧
    (enviroCommon
      (fun n : String =>
        if n = "SSHWIFTY_ONLYALLOWPRESETREMOTES" then "SSHWIFTY_ENV_RENAMED:SSHWIFTY_UNSET"
        else "")
      ([] : HookTable Unit) : fileCfgCommon Unit Unit).OnlyAllowPresetRemotes = false := by
  decide

/-! ## The stages of `Enviro` -/

theorem Enviro_hook_error {H R P S : Type} (ext : Externals H R P S) (env : Env)
    (hooks : HookTable H) (e : String)
    (h : enviroHooks ext.HOOK_BEFORE_CONNECTING env = (hooks, some e)) :
    Enviro ext env =
      ("", Configuration.zero,
        some ("Unable to parse SSHWIFTY_HOOK_BEFORE_CONNECTING: " ++ e)) := by
  simp only [Enviro, h]

theorem Enviro_build_error {H R P S : Type} (ext : Externals H R P S) (env : Env)
    (hooks : HookTable H) (cfg : fileCfgCommon H R) (e : String)
    (h : enviroHooks ext.HOOK_BEFORE_CONNECTING env = (hooks, none))
    (hb : ext.commonBuild (enviroCommon env hooks) = (cfg, some e)) :
    Enviro ext env =
      (enviroTypeName, Configuration.zero, some ("failed to build the configuration: " ++ e)) := by
  simp only [Enviro, h, hb]

theorem Enviro_preset_error {H R P S : Type} (ext : Externals H R P S) (env : Env)
    (hooks : HookTable H) (cfg : fileCfgCommon H R) (presets : List R) (e : String)
    (h : enviroHooks ext.HOOK_BEFORE_CONNECTING env = (hooks, none))
    (hb : ext.commonBuild (enviroCommon env hooks) = (cfg, none))
    (hp : enviroPresets ext env = (presets, some e)) :
    Enviro ext env =
      (enviroTypeName, Configuration.zero, some ("invalid \"SSHWIFTY_PRESETS\": " ++ e)) := by
  simp only [Enviro, h, hb, hp]

theorem Enviro_finish {H R P S : Type} (ext : Externals H R P S) (env : Env)
    (hooks : HookTable H) (cfg : fileCfgCommon H R) (presets : List R)
    (h : enviroHooks ext.HOOK_BEFORE_CONNECTING env = (hooks, none))
    (hb : ext.commonBuild (enviroCommon env hooks) = (cfg, none))
    (hp : enviroPresets ext env = (presets, none)) :
    Enviro ext env = enviroFinish ext cfg (enviroServer env) presets := by
  simp only [Enviro, h, hb, hp]

theorem enviroFinish_error {H R P S : Type} (ext : Externals H R P S)
    (cfg : fileCfgCommon H R) (cfgSer : fileCfgServer) (presets : List R) (ps : List P)
    (e : String) (h : ext.concretize presets = (ps, some e)) :
    enviroFinish ext cfg cfgSer presets =
      (enviroTypeName, Configuration.zero, some ("unable to parse Preset data: " ++ e)) := by
  simp only [enviroFinish, h]

theorem enviroFinish_ok {H R P S : Type} (ext : Externals H R P S)
    (cfg : fileCfgCommon H R) (cfgSer : fileCfgServer) (presets : List R) (ps : List P)
    (h : ext.concretize presets = (ps, none)) :
    enviroFinish ext cfg cfgSer presets =
      (enviroTypeName, enviroCompose ext cfg cfgSer ps, none) := by
  simp only [enviroFinish, h]

/-- When the loader returns no error, every stage succeeded and the result is
the composed configuration under the loader's label. -/
theorem Enviro_ok_inv {H R P S : Type} (ext : Externals H R P S) (env : Env)
    (hok : (Enviro ext env).2.2 = none) :
    ∃ (hooks : HookTable H) (cfg : fileCfgCommon H R) (presets : List R) (ps : List P),
      enviroHooks ext.HOOK_BEFORE_CONNECTING env = (hooks, none) ∧
      ext.commonBuild (enviroCommon env hooks) = (cfg, none) ∧
      enviroPresets ext env = (presets, none) ∧
      ext.concretize presets = (ps, none) ∧
      Enviro ext env = (enviroTypeName, enviroCompose ext cfg (enviroServer env) ps, none) := by
  rcases h1 : enviroHooks ext.HOOK_BEFORE_CONNECTING env with ⟨hooks, _ | e⟩
  · rcases h2 : ext.commonBuild (enviroCommon env hooks) with ⟨cfg, _ | e⟩
    · rcases h3 : enviroPresets ext env with ⟨presets, _ | e⟩
      · rcases h4 : ext.concretize presets with ⟨ps, _ | e⟩
        · exact ⟨hooks, cfg, presets, ps, rfl, h2, rfl, h4, by
            rw [Enviro_finish ext env hooks cfg presets h1 h2 h3,
              enviroFinish_ok ext cfg _ presets ps h4]⟩
        · rw [Enviro_finish ext env hooks cfg presets h1 h2 h3,
            enviroFinish_error ext cfg _ presets ps e h4] at hok
          exact Option.noConfusion hok
      · rw [Enviro_preset_error ext env hooks cfg presets e h1 h2 h3] at hok
        exact Option.noConfusion hok
    · rw [Enviro_build_error ext env hooks cfg e h1 h2] at hok
      exact Option.noConfusion hok
  · rw [Enviro_hook_error ext env hooks e h1] at hok
    exact Option.noConfusion hok

/-- The five outcomes of the loader, each at a concrete environment. -/
theorem Enviro_samples :
    (Enviro sampleExternals (envOf [("SSHWIFTY_HOOK_BEFORE_CONNECTING", "not-json")])).2.2 =
      some ("Unable to parse SSHWIFTY_HOOK_BEFORE_CONNECTING: " ++
        "invalid character 'o' in literal null (expecting 'u')") ∧
    (Enviro failingBuildExternals (envOf [])).2.2 =
      some "failed to build the configuration: no shared key" ∧
    (Enviro sampleExternals (envOf [("SSHWIFTY_PRESETS", " x ")])).2.2 =
      some ("invalid \"SSHWIFTY_PRESETS\": " ++
        "invalid character 'x' looking for beginning of value") ∧
    (Enviro failingConcretizeExternals (envOf [])).2.2 =
      some "unable to parse Preset data: no host" ∧
    (Enviro sampleExternals
        (envOf [("SSHWIFTY_HOOK_BEFORE_CONNECTING", "[\"a\",\"b\"]"),
          ("SSHWIFTY_DIALTIMEOUT", "30"), ("SSHWIFTY_LISTENPORT", "8080")])).2.2 = none := by
  decide

theorem enviroHooks_of_empty {H : Type} (hbc : H) (env : Env)
    (h : parseEnv env "SSHWIFTY_HOOK_BEFORE_CONNECTING" = "") :
    enviroHooks hbc env = ([], none) := by
  simp [enviroHooks, h]

theorem enviroHooks_of_error {H : Type} (hbc : H) (env : Env) (e : String)
    (hne : parseEnv env "SSHWIFTY_HOOK_BEFORE_CONNECTING" ≠ "")
    (herr : (parseJsonStringArray (parseEnv env "SSHWIFTY_HOOK_BEFORE_CONNECTING")).2 = some e) :
    enviroHooks hbc env = ([], some e) := by
  have hlen := (length_pos_iff_ne_empty _).mpr hne
  rcases hd : parseJsonStringArray (parseEnv env "SSHWIFTY_HOOK_BEFORE_CONNECTING") with ⟨r, er⟩
  rw [hd] at herr
  simp only at herr
  subst herr
  simp only [enviroHooks, hlen, if_true, hd]

theorem enviroHooks_of_decoded {H : Type} (hbc : H) (env : Env) (L : List String)
    (hne : parseEnv env "SSHWIFTY_HOOK_BEFORE_CONNECTING" ≠ "")
    (hdec : parseJsonStringArray (parseEnv env "SSHWIFTY_HOOK_BEFORE_CONNECTING") = (L, none)) :
    enviroHooks hbc env = ([(hbc, [L])], none) := by
  have hlen := (length_pos_iff_ne_empty _).mpr hne
  simp only [enviroHooks, hlen, if_true, hdec]

/-- C3 (amended): when the resolved value of `SSHWIFTY_HOOK_BEFORE_CONNECTING`
is non-empty and `json.Unmarshal` into a string slice reports an error for it
(as it does for `not-json`, `[1]`, an object and a whitespace-only value, but
not for `null` nor `[null]`), the loader returns the error that names the
variable and carries the decode error, with the zero configuration, and no hook
entry is inserted. -/
theorem hook_decode_error_reported {H R P S : Type} (ext : Externals H R P S) (env : Env)
    (e : String)
    (hne : parseEnv env "SSHWIFTY_HOOK_BEFORE_CONNECTING" ≠ "")
    (herr : (parseJsonStringArray (parseEnv env "SSHWIFTY_HOOK_BEFORE_CONNECTING")).2 = some e) :
    Enviro ext env =
      ("", Configuration.zero,
        some ("Unable to parse SSHWIFTY_HOOK_BEFORE_CONNECTING: " ++ e)) ∧
    (enviroHooks ext.HOOK_BEFORE_CONNECTING env).1 = [] ∧
    (parseJsonStringArray "not-json").2 =
      some "invalid character 'o' in literal null (expecting 'u')" ∧
    (parseJsonStringArray "[1]").2 =
      some "json: cannot unmarshal number into Go value of type string" ∧
    (parseJsonStringArray "\x7b\x7d").2 =
      some "json: cannot unmarshal object into Go value of type []string" ∧
    (parseJsonStringArray " \t ").2 = some "unexpected end of JSON input" ∧
    parseJsonStringArray "null" = ([], none) ∧
    parseJsonStringArray "[null]" = ([""], none) := by
  have hh := enviroHooks_of_error ext.HOOK_BEFORE_CONNECTING env e hne herr
  refine ⟨Enviro_hook_error ext env [] e hh, by rw [hh], ?_, ?_, ?_, ?_, ?_, ?_⟩ <;> decide

/-- C3 at `SSHWIFTY_HOOK_BEFORE_CONNECTING=not-json`. -/
theorem hook_decode_error_reported_witness :
    Enviro sampleExternals (envOf [("SSHWIFTY_HOOK_BEFORE_CONNECTING", "not-json")]) =
      ("", Configuration.zero,
        some ("Unable to parse SSHWIFTY_HOOK_BEFORE_CONNECTING: " ++
          "invalid character 'o' in literal null (expecting 'u')")) :=
  (hook_decode_error_reported sampleExternals
    (envOf [("SSHWIFTY_HOOK_BEFORE_CONNECTING", "not-json")])
    "invalid character 'o' in literal null (expecting 'u')" (by decide) (by decide)).1

/-- C3, as stated, fails: for the non-empty values `null` and `[null]`, which
are no JSON arrays of strings, the loader returns no error and a hook entry is
inserted. -/
theorem hook_null_accepted :
    (Enviro sampleExternals (envOf [("SSHWIFTY_HOOK_BEFORE_CONNECTING", "null")])).2.2 = none ∧
    enviroHooks "HOOK_BEFORE_CONNECTING"
        (envOf [("SSHWIFTY_HOOK_BEFORE_CONNECTING", "null")]) =
      ([("HOOK_BEFORE_CONNECTING", [[]])], none) ∧
    (Enviro sampleExternals (envOf [("SSHWIFTY_HOOK_BEFORE_CONNECTING", "[null]")])).2.2 = none ∧
    enviroHooks "HOOK_BEFORE_CONNECTING"
        (envOf [("SSHWIFTY_HOOK_BEFORE_CONNECTING", "[null]")]) =
      ([("HOOK_BEFORE_CONNECTING", [[""]])], none) := by
  decide

/-- C5: the hook table handed to the common builder is empty when the resolved
value of `SSHWIFTY_HOOK_BEFORE_CONNECTING` is empty or unset, and when that
value decodes to the string sequence `L` it is the single entry of key
`HOOK_BEFORE_CONNECTING` and value `[L]`; no other key is ever inserted, and
`["a","b"]` decodes to the sequence `a`, `b` in that order. -/
theorem hook_table_contents {H R : Type} (hbc : H) (env : Env) :
    (parseEnv env "SSHWIFTY_HOOK_BEFORE_CONNECTING" = "" →
      enviroHooks hbc env = ([], none)) ∧
    (env "SSHWIFTY_HOOK_BEFORE_CONNECTING" = "" → enviroHooks hbc env = ([], none)) ∧
    (∀ L : List String, parseEnv env "SSHWIFTY_HOOK_BEFORE_CONNECTING" ≠ "" →
      parseJsonStringArray (parseEnv env "SSHWIFTY_HOOK_BEFORE_CONNECTING") = (L, none) →
      enviroHooks hbc env = ([(hbc, [L])], none)) ∧
    (∀ (k : H) (v : List HookCommand), (k, v) ∈ (enviroHooks hbc env).1 → k = hbc) ∧
    (enviroCommon env (enviroHooks hbc env).1 : fileCfgCommon H R).Hooks =
      (enviroHooks hbc env).1 ∧
    parseJsonStringArray "[\"a\",\"b\"]" = (["a", "b"], none) ∧
    (parseEnv env "SSHWIFTY_HOOK_BEFORE_CONNECTING" = "[\"a\",\"b\"]" →
      enviroHooks hbc env = ([(hbc, [["a", "b"]])], none)) := by
  refine ⟨enviroHooks_of_empty hbc env, ?_, enviroHooks_of_decoded hbc env, ?_, rfl,
    by decide, ?_⟩
  · intro h
    apply enviroHooks_of_empty
    have hget : Getenv env "SSHWIFTY_HOOK_BEFORE_CONNECTING" = "" := by
      unfold Getenv
      rw [if_neg (by decide), h]
    rw [parseEnv_of_not_marker env _ ?_, hget]
    intro t
    rw [hget]
    exact empty_ne_marker_append t
  · intro k v hmem
    by_cases hne : parseEnv env "SSHWIFTY_HOOK_BEFORE_CONNECTING" = ""
    · rw [enviroHooks_of_empty hbc env hne] at hmem
      exact absurd hmem (List.not_mem_nil _)
    · rcases hd : parseJsonStringArray (parseEnv env "SSHWIFTY_HOOK_BEFORE_CONNECTING")
        with ⟨L, _ | e⟩
      · rw [enviroHooks_of_decoded hbc env L hne hd] at hmem
        have := List.mem_singleton.mp hmem
        exact (Prod.mk.inj this).1
      · rw [enviroHooks_of_error hbc env e hne (by rw [hd])] at hmem
        exact absurd hmem (List.not_mem_nil _)
  · intro h
    apply enviroHooks_of_decoded hbc env
    · rw [h]; decide
    · rw [h]; decide

theorem enviroPresets_ok_cases {H R P S : Type} (ext : Externals H R P S) (env : Env)
    (presets : List R) (h : enviroPresets ext env = (presets, none)) :
    (TrimSpace (parseEnv env "SSHWIFTY_PRESETS") = "" ∧ presets = []) ∨
    (TrimSpace (parseEnv env "SSHWIFTY_PRESETS") ≠ "" ∧
      ext.unmarshalPresets (TrimSpace (parseEnv env "SSHWIFTY_PRESETS")) = (presets, none)) := by
  by_cases hp : TrimSpace (parseEnv env "SSHWIFTY_PRESETS") = ""
  · left
    have h0 : enviroPresets ext env = ([], none) := by simp [enviroPresets, hp]
    rw [h0] at h
    exact ⟨hp, ((Prod.mk.inj h).1).symm⟩
  · right
    have hlen := (length_pos_iff_ne_empty _).mpr hp
    have h0 : enviroPresets ext env =
        ext.unmarshalPresets (TrimSpace (parseEnv env "SSHWIFTY_PRESETS")) := by
      simp only [enviroPresets, hlen, if_true]
    exact ⟨hp, by rw [← h0, h]⟩

/-- C6: the result of the loader has one of two shapes, for every environment
and all collaborators.  Either there is no error, all four stages succeeded
(hook decode, common build on the bag filled from the environment, preset
decode, concretization) and every field of the configuration is set: the text
fields, the hook table and the flag are the built common value's, the two
timeouts are its integers in seconds, the server sequence is the one built
server and the presets are the concretized ones.  Or there is an error and
every field of the configuration holds its zero value.  The stages fail in the
order hook decode, common build, preset decode, preset concretization, and the
first failure is the one reported. -/
theorem result_shapes {H R P S : Type} (ext : Externals H R P S) (env : Env) :
    (((Enviro ext env).2.2 = none ∧
        ∃ (hooks : HookTable H) (cfg : fileCfgCommon H R) (presets : List R) (ps : List P),
          enviroHooks ext.HOOK_BEFORE_CONNECTING env = (hooks, none) ∧
          ext.commonBuild
              { HostName := parseEnv env "SSHWIFTY_HOSTNAME",
                SharedKey := parseEnv env "SSHWIFTY_SHAREDKEY",
                DialTimeout :=
                  intOfUint64 (ParseUint (parseEnv env "SSHWIFTY_DIALTIMEOUT") 32).1,
                Socks5 := parseEnv env "SSHWIFTY_SOCKS5",
                Socks5User := parseEnv env "SSHWIFTY_SOCKS5_USER",
                Socks5Password := parseEnv env "SSHWIFTY_SOCKS5_PASSWORD",
                Hooks := hooks,
                HookTimeout :=
                  intOfUint64 (ParseUint (parseEnv env "SSHWIFTY_HOOKTIMEOUT") 32).1,
                Servers := [],
                Presets := [],
                OnlyAllowPresetRemotes :=
                  decide ((parseEnv env "SSHWIFTY_ONLYALLOWPRESETREMOTES").length > 0) }
            = (cfg, none) ∧
          ((TrimSpace (parseEnv env "SSHWIFTY_PRESETS") = "" ∧ presets = []) ∨
            (TrimSpace (parseEnv env "SSHWIFTY_PRESETS") ≠ "" ∧
              ext.unmarshalPresets (TrimSpace (parseEnv env "SSHWIFTY_PRESETS"))
                = (presets, none))) ∧
          ext.concretize presets = (ps, none) ∧
          (Enviro ext env).2.1 =
            { HostName := cfg.HostName,
              SharedKey := cfg.SharedKey,
              DialTimeout := secondsToDuration cfg.DialTimeout,
              Socks5 := cfg.Socks5,
              Socks5User := cfg.Socks5User,
              Socks5Password := cfg.Socks5Password,
              Hooks := cfg.Hooks,
              HookTimeout := secondsToDuration cfg.HookTimeout,
              Servers := [ext.serverBuild (enviroServer env)],
              Presets := ps,
              OnlyAllowPresetRemotes := cfg.OnlyAllowPresetRemotes }) ∨
      ((Enviro ext env).2.2 ≠ none ∧
        (Enviro ext env).2.1 =
          { HostName := "", SharedKey := "", DialTimeout := 0, Socks5 := "", Socks5User := "",
            Socks5Password := "", Hooks := [], HookTimeout := 0, Servers := [], Presets := [],
            OnlyAllowPresetRemotes := false })) ∧
    (∀ (hooks : HookTable H) (e : String),
      enviroHooks ext.HOOK_BEFORE_CONNECTING env = (hooks, some e) →
      (Enviro ext env).2.2 = some ("Unable to parse SSHWIFTY_HOOK_BEFORE_CONNECTING: " ++ e)) ∧
    (∀ (hooks : HookTable H) (cfg : fileCfgCommon H R) (e : String),
      enviroHooks ext.HOOK_BEFORE_CONNECTING env = (hooks, none) →
      ext.commonBuild (enviroCommon env hooks) = (cfg, some e) →
      (Enviro ext env).2.2 = some ("failed to build the configuration: " ++ e)) ∧
    (∀ (hooks : HookTable H) (cfg : fileCfgCommon H R) (presets : List R) (e : String),
      enviroHooks ext.HOOK_BEFORE_CONNECTING env = (hooks, none) →
      ext.commonBuild (enviroCommon env hooks) = (cfg, none) →
      enviroPresets ext env = (presets, some e) →
      (Enviro ext env).2.2 = some ("invalid \"SSHWIFTY_PRESETS\": " ++ e)) ∧
    (∀ (hooks : HookTable H) (cfg : fileCfgCommon H R) (presets : List R) (ps : List P)
      (e : String),
      enviroHooks ext.HOOK_BEFORE_CONNECTING env = (hooks, none) →
      ext.commonBuild (enviroCommon env hooks) = (cfg, none) →
      enviroPresets ext env = (presets, none) →
      ext.concretize presets = (ps, some e) →
      (Enviro ext env).2.2 = some ("unable to parse Preset data: " ++ e)) := by
  refine ⟨?_, ?_, ?_, ?_, ?_⟩
  · rcases h1 : enviroHooks ext.HOOK_BEFORE_CONNECTING env with ⟨hooks, _ | e⟩
    · rcases h2 : ext.commonBuild (enviroCommon env hooks) with ⟨cfg, _ | e⟩
      · rcases h3 : enviroPresets ext env with ⟨presets, _ | e⟩
        · rcases h4 : ext.concretize presets with ⟨ps, _ | e⟩
          · left
            have hE := Enviro_finish ext env hooks cfg presets h1 h2 h3
            rw [enviroFinish_ok ext cfg _ presets ps h4] at hE
            exact ⟨congrArg (fun r => r.2.2) hE, hooks, cfg, presets, ps, rfl, h2,
              enviroPresets_ok_cases ext env presets h3, h4, congrArg (fun r => r.2.1) hE⟩
          · right
            have hE := Enviro_finish ext env hooks cfg presets h1 h2 h3
            rw [enviroFinish_error ext cfg _ presets ps e h4] at hE
            rw [hE]
            exact ⟨fun h => Option.noConfusion h, rfl⟩
        · right
          rw [Enviro_preset_error ext env hooks cfg presets e h1 h2 h3]
          exact ⟨fun h => Option.noConfusion h, rfl⟩
      · right
        rw [Enviro_build_error ext env hooks cfg e h1 h2]
        exact ⟨fun h => Option.noConfusion h, rfl⟩
    · right
      rw [Enviro_hook_error ext env hooks e h1]
      exact ⟨fun h => Option.noConfusion h, rfl⟩
  · intro hooks e h1
    rw [Enviro_hook_error ext env hooks e h1]
  · intro hooks cfg e h1 h2
    rw [Enviro_build_error ext env hooks cfg e h1 h2]
  · intro hooks cfg presets e h1 h2 h3
    rw [Enviro_preset_error ext env hooks cfg presets e h1 h2 h3]
  · intro hooks cfg presets ps e h1 h2 h3 h4
    rw [Enviro_finish ext env hooks cfg presets h1 h2 h3,
      enviroFinish_error ext cfg _ presets ps e h4]

theorem head_append (a x : String) (c : Char) (h : a.data.head? = some c) :
    (a ++ x).data.head? = some c := by
  rw [String.data_append]
  cases hd : a.data with
  | nil => rw [hd] at h; exact Option.noConfusion h
  | cons b l => rw [hd] at h; exact h

theorem unable_ne_invalid (a b : String) :
    "unable to parse Preset data: " ++ a ≠ "invalid \"SSHWIFTY_PRESETS\": " ++ b := by
  intro h
  have h1 := head_append "unable to parse Preset data: " a 'u' rfl
  have h2 := head_append "invalid \"SSHWIFTY_PRESETS\": " b 'i' rfl
  rw [h, h2] at h1
  exact absurd (Option.some.inj h1) (by decide)

theorem enviroPresets_of_empty {H R P S : Type} (ext : Externals H R P S) (env : Env)
    (h : TrimSpace (parseEnv env "SSHWIFTY_PRESETS") = "") :
    enviroPresets ext env = ([], none) := by
  simp [enviroPresets, h]

theorem enviroPresets_of_nonempty {H R P S : Type} (ext : Externals H R P S) (env : Env)
    (h : TrimSpace (parseEnv env "SSHWIFTY_PRESETS") ≠ "") :
    enviroPresets ext env = ext.unmarshalPresets (TrimSpace (parseEnv env "SSHWIFTY_PRESETS")) := by
  have hlen := (length_pos_iff_ne_empty _).mpr h
  simp only [enviroPresets, hlen, if_true]

/-- C7: for an environment that passes the hook and common-build stages, the
loader returns the error naming `SSHWIFTY_PRESETS` exactly when the resolved
value, trimmed of surrounding white space, is non-empty and its decoding into
preset records fails.  Otherwise the concretizer is applied to the sequence
`rs` that is empty for an empty trimmed value (unset or blank, nothing being
decoded) and is the decoded records, in decode order, for a value that decodes:
an error of `concretize rs` is the error of the loader, and the presets it
returns are the presets of the configuration. -/
theorem presets_stage {H R P S : Type} (ext : Externals H R P S) (env : Env)
    (hooks : HookTable H) (cfg : fileCfgCommon H R)
    (h1 : enviroHooks ext.HOOK_BEFORE_CONNECTING env = (hooks, none))
    (h2 : ext.commonBuild (enviroCommon env hooks) = (cfg, none)) :
    ((∃ e : String, (Enviro ext env).2.2 = some ("invalid \"SSHWIFTY_PRESETS\": " ++ e)) ↔
      (TrimSpace (parseEnv env "SSHWIFTY_PRESETS") ≠ "" ∧
        (ext.unmarshalPresets (TrimSpace (parseEnv env "SSHWIFTY_PRESETS"))).2 ≠ none)) ∧
    (∀ e : String, TrimSpace (parseEnv env "SSHWIFTY_PRESETS") ≠ "" →
      (ext.unmarshalPresets (TrimSpace (parseEnv env "SSHWIFTY_PRESETS"))).2 = some e →
      Enviro ext env =
        (enviroTypeName,
          { HostName := "", SharedKey := "", DialTimeout := 0, Socks5 := "", Socks5User := "",
            Socks5Password := "", Hooks := [], HookTimeout := 0, Servers := [], Presets := [],
            OnlyAllowPresetRemotes := false },
          some ("invalid \"SSHWIFTY_PRESETS\": " ++ e))) ∧
    (∀ rs : List R,
      ((TrimSpace (parseEnv env "SSHWIFTY_PRESETS") = "" ∧ rs = []) ∨
        (TrimSpace (parseEnv env "SSHWIFTY_PRESETS") ≠ "" ∧
          ext.unmarshalPresets (TrimSpace (parseEnv env "SSHWIFTY_PRESETS")) = (rs, none))) →
      (∀ (ps : List P) (e : String), ext.concretize rs = (ps, some e) →
        Enviro ext env =
          (enviroTypeName,
            { HostName := "", SharedKey := "", DialTimeout := 0, Socks5 := "", Socks5User := "",
              Socks5Password := "", Hooks := [], HookTimeout := 0, Servers := [], Presets := [],
              OnlyAllowPresetRemotes := false },
            some ("unable to parse Preset data: " ++ e))) ∧
      (∀ ps : List P, ext.concretize rs = (ps, none) →
        Enviro ext env =
          (enviroTypeName,
            { HostName := cfg.HostName,
              SharedKey := cfg.SharedKey,
              DialTimeout := secondsToDuration cfg.DialTimeout,
              Socks5 := cfg.Socks5,
              Socks5User := cfg.Socks5User,
              Socks5Password := cfg.Socks5Password,
              Hooks := cfg.Hooks,
              HookTimeout := secondsToDuration cfg.HookTimeout,
              Servers := [ext.serverBuild (enviroServer env)],
              Presets := ps,
              OnlyAllowPresetRemotes := cfg.OnlyAllowPresetRemotes },
            none))) ∧
    (parseEnv env "SSHWIFTY_PRESETS" = "" → TrimSpace (parseEnv env "SSHWIFTY_PRESETS") = "") ∧
    TrimSpace " \t\n " = "" := by
  have hErr : ∀ e : String, TrimSpace (parseEnv env "SSHWIFTY_PRESETS") ≠ "" →
      (ext.unmarshalPresets (TrimSpace (parseEnv env "SSHWIFTY_PRESETS"))).2 = some e →
      Enviro ext env =
        (enviroTypeName, Configuration.zero, some ("invalid \"SSHWIFTY_PRESETS\": " ++ e)) := by
    intro e hne he
    rcases hd : ext.unmarshalPresets (TrimSpace (parseEnv env "SSHWIFTY_PRESETS")) with ⟨rs, er⟩
    rw [hd] at he
    simp only at he
    subst he
    exact Enviro_preset_error ext env hooks cfg rs e h1 h2
      (by rw [enviroPresets_of_nonempty ext env hne, hd])
  have hEmpty : TrimSpace (parseEnv env "SSHWIFTY_PRESETS") = "" →
      Enviro ext env = enviroFinish ext cfg (enviroServer env) [] := fun h =>
    Enviro_finish ext env hooks cfg [] h1 h2 (enviroPresets_of_empty ext env h)
  have hDec : ∀ rs : List R, TrimSpace (parseEnv env "SSHWIFTY_PRESETS") ≠ "" →
      ext.unmarshalPresets (TrimSpace (parseEnv env "SSHWIFTY_PRESETS")) = (rs, none) →
      Enviro ext env = enviroFinish ext cfg (enviroServer env) rs := fun rs hne hd =>
    Enviro_finish ext env hooks cfg rs h1 h2 (by rw [enviroPresets_of_nonempty ext env hne, hd])
  have hFin : ∀ (rs : List R) (e : String),
      (enviroFinish ext cfg (enviroServer env) rs).2.2 ≠
        some ("invalid \"SSHWIFTY_PRESETS\": " ++ e) := by
    intro rs e
    rcases h4 : ext.concretize rs with ⟨ps, _ | e2⟩
    · rw [enviroFinish_ok ext cfg _ rs ps h4]
      exact fun h => Option.noConfusion h
    · rw [enviroFinish_error ext cfg _ rs ps e2 h4]
      exact fun h => unable_ne_invalid e2 e (Option.some.inj h)
  have hRun : ∀ rs : List R,
      ((TrimSpace (parseEnv env "SSHWIFTY_PRESETS") = "" ∧ rs = []) ∨
        (TrimSpace (parseEnv env "SSHWIFTY_PRESETS") ≠ "" ∧
          ext.unmarshalPresets (TrimSpace (parseEnv env "SSHWIFTY_PRESETS")) = (rs, none))) →
      Enviro ext env = enviroFinish ext cfg (enviroServer env) rs := by
    rintro rs (⟨hp, rfl⟩ | ⟨hp, hd⟩)
    · exact hEmpty hp
    · exact hDec rs hp hd
  have hConc : ∀ rs : List R,
      ((TrimSpace (parseEnv env "SSHWIFTY_PRESETS") = "" ∧ rs = []) ∨
        (TrimSpace (parseEnv env "SSHWIFTY_PRESETS") ≠ "" ∧
          ext.unmarshalPresets (TrimSpace (parseEnv env "SSHWIFTY_PRESETS")) = (rs, none))) →
      (∀ (ps : List P) (e : String), ext.concretize rs = (ps, some e) →
        Enviro ext env =
          (enviroTypeName, Configuration.zero, some ("unable to parse Preset data: " ++ e))) ∧
      (∀ ps : List P, ext.concretize rs = (ps, none) →
        Enviro ext env =
          (enviroTypeName, enviroCompose ext cfg (enviroServer env) ps, none)) := by
    intro rs hrs
    refine ⟨?_, ?_⟩
    · intro ps e hc
      rw [hRun rs hrs, enviroFinish_error ext cfg _ rs ps e hc]
    · intro ps hc
      rw [hRun rs hrs, enviroFinish_ok ext cfg _ rs ps hc]
  refine ⟨⟨?_, ?_⟩, hErr, hConc, ?_, by decide⟩
  · rintro ⟨e, he⟩
    by_cases hne : TrimSpace (parseEnv env "SSHWIFTY_PRESETS") = ""
    · rw [hEmpty hne] at he
      exact absurd he (hFin [] e)
    · refine ⟨hne, ?_⟩
      intro hnone
      rcases hd : ext.unmarshalPresets (TrimSpace (parseEnv env "SSHWIFTY_PRESETS"))
        with ⟨rs, er⟩
      rw [hd] at hnone
      simp only at hnone
      subst hnone
      rw [hDec rs hne hd] at he
      exact absurd he (hFin rs e)
  · rintro ⟨hne, herr⟩
    cases he : (ext.unmarshalPresets (TrimSpace (parseEnv env "SSHWIFTY_PRESETS"))).2 with
    | none => exact absurd he herr
    | some e => exact ⟨e, by rw [hErr e hne he]⟩
  · intro h
    rw [h]
    decide

/-- C7 at `SSHWIFTY_PRESETS=[{"id":"x"}]`, surrounded by blanks: the presets of
the configuration are what the concretizer returns for the one decoded record. -/
theorem presets_stage_witness :
    (Enviro sampleExternals
        (envOf [("SSHWIFTY_PRESETS", " [\x7b\"id\":\"x\"\x7d] ")])).2.1.Presets =
      (sampleExternals.concretize ["\x7b\"id\":\"x\"\x7d"]).1 ∧
    (Enviro sampleExternals
        (envOf [("SSHWIFTY_PRESETS", " [\x7b\"id\":\"x\"\x7d] ")])).2.2 = none :=
  ⟨congrArg (fun r => r.2.1.Presets)
      (((presets_stage sampleExternals (envOf [("SSHWIFTY_PRESETS", " [\x7b\"id\":\"x\"\x7d] ")])
        [] _ (by decide) rfl).2.2.1 ["\x7b\"id\":\"x\"\x7d"]
          (Or.inr ⟨by decide, by decide⟩)).2 ["\x7b\"id\":\"x\"\x7d"] rfl),
    by decide⟩

theorem secondsToDuration_exact (n : Int) (h0 : 0 ≤ n) (h1 : n < 2 ^ 32) :
    secondsToDuration n = n * 1000000000 := by
  unfold secondsToDuration Second
  have h : (2 : Int) ^ 32 = 4294967296 := by norm_num
  rw [h] at h1
  have e63 : (2 : Int) ^ 63 = 9223372036854775808 := by norm_num
  have e64 : (2 : Int) ^ 64 = 18446744073709551616 := by norm_num
  rw [e63, e64]
  omega

/-- C8: on success the dial timeout and the hook timeout of the configuration
are the common builder's `DialTimeout` and `HookTimeout` times `time.Second`,
in Go's 64-bit arithmetic; for every `n` with `0 <= n < 2^32`, hence for every
value the 32-bit coercion produces, that product is exactly `n * 10^9` without
wrapping; so with a builder that keeps `DialTimeout`, `SSHWIFTY_DIALTIMEOUT=30`
gives exactly 30 seconds. -/
theorem durations_in_seconds {H R P S : Type} (ext : Externals H R P S) (env : Env)
    (hok : (Enviro ext env).2.2 = none) :
    (∃ (hooks : HookTable H) (cfg : fileCfgCommon H R),
      enviroHooks ext.HOOK_BEFORE_CONNECTING env = (hooks, none) ∧
      ext.commonBuild (enviroCommon env hooks) = (cfg, none) ∧
      (Enviro ext env).2.1.DialTimeout = secondsToDuration cfg.DialTimeout ∧
      (Enviro ext env).2.1.HookTimeout = secondsToDuration cfg.HookTimeout) ∧
    ((∀ c : fileCfgCommon H R, (ext.commonBuild c).1.DialTimeout = c.DialTimeout) →
      parseEnv env "SSHWIFTY_DIALTIMEOUT" = "30" →
      (Enviro ext env).2.1.DialTimeout = 30 * 1000000000) ∧
    (∀ n : Int, 0 ≤ n → n < 2 ^ 32 → secondsToDuration n = n * 1000000000) ∧
    (∀ s : String, secondsToDuration (intOfUint64 (ParseUint s 32).1) =
      ((ParseUint s 32).1 : Int) * 1000000000) ∧
    Second = 10 ^ 9 := by
  obtain ⟨hooks, cfg, presets, ps, h1, h2, _, _, hE⟩ := Enviro_ok_inv ext env hok
  refine ⟨⟨hooks, cfg, h1, h2, by rw [hE]; rfl, by rw [hE]; rfl⟩, ?_,
    secondsToDuration_exact, ?_, by decide⟩
  · intro hkeep h30
    have hc : cfg.DialTimeout = 30 := by
      have := hkeep (enviroCommon env hooks)
      rw [h2] at this
      simp only at this
      rw [this]
      show intOfUint64 (ParseUint (parseEnv env "SSHWIFTY_DIALTIMEOUT") 32).1 = 30
      rw [h30]
      decide
    rw [hE]
    show secondsToDuration cfg.DialTimeout = 30 * 1000000000
    rw [hc]
    decide
  · intro s
    have hlt := ParseUint_lt s 32 (by norm_num) (by norm_num)
    rw [intOfUint64_of_lt _ hlt]
    apply secondsToDuration_exact
    · exact Int.ofNat_nonneg _
    · exact_mod_cast hlt

/-- C8 at `SSHWIFTY_DIALTIMEOUT=30`, with a builder that keeps the field: the
dial timeout is 30 seconds. -/
theorem durations_in_seconds_witness :
    (Enviro sampleExternals (envOf [("SSHWIFTY_DIALTIMEOUT", "30")])).2.1.DialTimeout
      = 30 * 1000000000 :=
  (durations_in_seconds sampleExternals (envOf [("SSHWIFTY_DIALTIMEOUT", "30")])
    (by decide)).2.1 (fun _ => rfl) (by decide)

/-- C9: on success the server sequence of the configuration has exactly one
element, the result of the server build step on the server field bag assembled
from the listen interface, the listen port, the timeout and delay variables,
the TLS file variables and the server message; the label returned is
`Environment Variable`. -/
theorem single_server {H R P S : Type} (ext : Externals H R P S) (env : Env)
    (hok : (Enviro ext env).2.2 = none) :
    (Enviro ext env).2.1.Servers = [ext.serverBuild (enviroServer env)] ∧
    (Enviro ext env).2.1.Servers.length = 1 ∧
    (Enviro ext env).1 = "Environment Variable" ∧
    enviroServer env =
      { ListenInterface := parseEnv env "SSHWIFTY_LISTENINTERFACE",
        ListenPort := uint16OfUint64 (ParseUint (parseEnv env "SSHWIFTY_LISTENPORT") 16).1,
        InitialTimeout := intOfUint64 (ParseUint (parseEnv env "SSHWIFTY_INITIALTIMEOUT") 32).1,
        ReadTimeout := intOfUint64 (ParseUint (parseEnv env "SSHWIFTY_READTIMEOUT") 32).1,
        WriteTimeout := intOfUint64 (ParseUint (parseEnv env "SSHWIFTY_WRITETIMEOUT") 32).1,
        HeartbeatTimeout :=
          intOfUint64 (ParseUint (parseEnv env "SSHWIFTY_HEARTBEATTIMEOUT") 32).1,
        ReadDelay := intOfUint64 (ParseUint (parseEnv env "SSHWIFTY_READDELAY") 32).1,
        WriteDelay := intOfUint64 (ParseUint (parseEnv env "SSHWIFTY_WRITEELAY") 32).1,
        TLSCertificateFile := parseEnv env "SSHWIFTY_TLSCERTIFICATEFILE",
        TLSCertificateKeyFile := parseEnv env "SSHWIFTY_TLSCERTIFICATEKEYFILE",
        ServerMessage := parseEnv env "SSHWIFTY_SERVERMESSAGE" } := by
  obtain ⟨hooks, cfg, presets, ps, _, _, _, _, hE⟩ := Enviro_ok_inv ext env hok
  refine ⟨by rw [hE]; rfl, by rw [hE]; rfl, by rw [hE]; rfl, rfl⟩

/-- C9 at an environment that sets the listen port. -/
theorem single_server_witness :
    (Enviro sampleExternals (envOf [("SSHWIFTY_LISTENPORT", "8080")])).2.1.Servers.length = 1 ∧
    (Enviro sampleExternals (envOf [("SSHWIFTY_LISTENPORT", "8080")])).1
      = "Environment Variable" :=
  ⟨(single_server sampleExternals (envOf [("SSHWIFTY_LISTENPORT", "8080")]) (by decide)).2.1,
    (single_server sampleExternals (envOf [("SSHWIFTY_LISTENPORT", "8080")]) (by decide)).2.2.1⟩

/-! ## The write delay variable -/

theorem Getenv_congr (e1 e2 : Env) (x name : String)
    (hdiff : ∀ n : String, n ≠ x → e1 n = e2 n) (hname : name ≠ x) :
    Getenv e1 name = Getenv e2 name := by
  unfold Getenv
  rw [hdiff name hname]

/-- Two environments that differ only at `x`, none of whose values redirects to
`x`, resolve every other name alike. -/
theorem parseEnv_congr (e1 e2 : Env) (x name : String)
    (hdiff : ∀ n : String, n ≠ x → e1 n = e2 n)
    (hred : ∀ n : String, e1 n ≠ renamedMarker ++ x) (hname : name ≠ x) :
    parseEnv e1 name = parseEnv e2 name := by
  have hg := Getenv_congr e1 e2 x name hdiff hname
  by_cases hm : ∃ t : String, Getenv e1 name = renamedMarker ++ t
  · obtain ⟨t, ht⟩ := hm
    have ht2 : Getenv e2 name = renamedMarker ++ t := by rw [← hg, ht]
    rw [parseEnv_of_marker e1 name t ht, parseEnv_of_marker e2 name t ht2]
    apply Getenv_congr e1 e2 x t hdiff
    intro htx
    rw [htx] at ht
    unfold Getenv at ht
    by_cases hl : name.length = 0
    · rw [if_pos hl] at ht
      exact empty_ne_marker_append x ht
    · rw [if_neg hl] at ht
      exact hred name ht
  · have hm1 : ∀ t : String, Getenv e1 name ≠ renamedMarker ++ t := fun t ht => hm ⟨t, ht⟩
    have hm2 : ∀ t : String, Getenv e2 name ≠ renamedMarker ++ t := fun t ht =>
      hm ⟨t, by rw [hg, ht]⟩
    rw [parseEnv_of_not_marker e1 name hm1, parseEnv_of_not_marker e2 name hm2, hg]

/-- What the loader itself reads is the same in two environments that resolve
every name other than `SSHWIFTY_WRITEDELAY` alike: that name is none of the
names the loader reads. -/
theorem enviro_reads_congr (e1 e2 : Env)
    (hp : ∀ name : String, name ≠ "SSHWIFTY_WRITEDELAY" → parseEnv e1 name = parseEnv e2 name) :
    (∀ {H : Type} (k : H), enviroHooks k e1 = enviroHooks k e2) ∧
    (∀ {H R : Type} (hooks : HookTable H),
      (enviroCommon e1 hooks : fileCfgCommon H R) = enviroCommon e2 hooks) ∧
    enviroServer e1 = enviroServer e2 ∧
    TrimSpace (parseEnv e1 "SSHWIFTY_PRESETS") = TrimSpace (parseEnv e2 "SSHWIFTY_PRESETS") := by
  refine ⟨?_, ?_, ?_, ?_⟩
  · intro H k
    simp only [enviroHooks, hp "SSHWIFTY_HOOK_BEFORE_CONNECTING" (by decide)]
  · intro H R hooks
    simp only [enviroCommon, hp "SSHWIFTY_DIALTIMEOUT" (by decide),
      hp "SSHWIFTY_HOOKTIMEOUT" (by decide),
      hp "SSHWIFTY_HOSTNAME" (by decide),
      hp "SSHWIFTY_SHAREDKEY" (by decide),
      hp "SSHWIFTY_SOCKS5" (by decide),
      hp "SSHWIFTY_SOCKS5_USER" (by decide),
      hp "SSHWIFTY_SOCKS5_PASSWORD" (by decide),
      hp "SSHWIFTY_ONLYALLOWPRESETREMOTES" (by decide)]
  · simp only [enviroServer, hp "SSHWIFTY_LISTENINTERFACE" (by decide),
      hp "SSHWIFTY_LISTENPORT" (by decide),
      hp "SSHWIFTY_INITIALTIMEOUT" (by decide),
      hp "SSHWIFTY_READTIMEOUT" (by decide),
      hp "SSHWIFTY_WRITETIMEOUT" (by decide),
      hp "SSHWIFTY_HEARTBEATTIMEOUT" (by decide),
      hp "SSHWIFTY_READDELAY" (by decide),
      hp "SSHWIFTY_WRITEELAY" (by decide),
      hp "SSHWIFTY_TLSCERTIFICATEFILE" (by decide),
      hp "SSHWIFTY_TLSCERTIFICATEKEYFILE" (by decide),
      hp "SSHWIFTY_SERVERMESSAGE" (by decide)]
  · rw [hp "SSHWIFTY_PRESETS" (by decide)]

/-- The loader gives the same result for two environments and two sets of
collaborators when what it reads is the same and the collaborators give the
same results on what the loader hands them. -/
theorem Enviro_congr {H R P S : Type} (x1 x2 : Externals H R P S) (e1 e2 : Env)
    (hH : enviroHooks x1.HOOK_BEFORE_CONNECTING e1 = enviroHooks x2.HOOK_BEFORE_CONNECTING e2)
    (hB : x1.commonBuild (enviroCommon e1 (enviroHooks x1.HOOK_BEFORE_CONNECTING e1).1) =
      x2.commonBuild (enviroCommon e2 (enviroHooks x1.HOOK_BEFORE_CONNECTING e1).1))
    (hP : enviroPresets x1 e1 = enviroPresets x2 e2)
    (hC : x1.concretize (enviroPresets x1 e1).1 = x2.concretize (enviroPresets x1 e1).1)
    (hS : x1.serverBuild (enviroServer e1) = x2.serverBuild (enviroServer e2)) :
    Enviro x1 e1 = Enviro x2 e2 := by
  rcases h1 : enviroHooks x1.HOOK_BEFORE_CONNECTING e1 with ⟨hooks, _ | e⟩
  · have h1b : enviroHooks x2.HOOK_BEFORE_CONNECTING e2 = (hooks, none) := by rw [← hH, h1]
    rw [h1] at hB
    simp only at hB
    rcases h2 : x1.commonBuild (enviroCommon e1 hooks) with ⟨cfg, _ | e⟩
    · have h2b : x2.commonBuild (enviroCommon e2 hooks) = (cfg, none) := by rw [← hB, h2]
      rcases h3 : enviroPresets x1 e1 with ⟨presets, _ | e⟩
      · have h3b : enviroPresets x2 e2 = (presets, none) := by rw [← hP, h3]
        rw [h3] at hC
        simp only at hC
        rw [Enviro_finish x1 e1 hooks cfg presets h1 h2 h3,
          Enviro_finish x2 e2 hooks cfg presets h1b h2b h3b]
        rcases h4 : x1.concretize presets with ⟨ps, _ | e⟩
        · have h4b : x2.concretize presets = (ps, none) := by rw [← hC, h4]
          rw [enviroFinish_ok x1 cfg _ presets ps h4, enviroFinish_ok x2 cfg _ presets ps h4b]
          simp only [enviroCompose, hS]
        · have h4b : x2.concretize presets = (ps, some e) := by rw [← hC, h4]
          rw [enviroFinish_error x1 cfg _ presets ps e h4,
            enviroFinish_error x2 cfg _ presets ps e h4b]
      · have h3b : enviroPresets x2 e2 = (presets, some e) := by rw [← hP, h3]
        rw [Enviro_preset_error x1 e1 hooks cfg presets e h1 h2 h3,
          Enviro_preset_error x2 e2 hooks cfg presets e h1b h2b h3b]
    · have h2b : x2.commonBuild (enviroCommon e2 hooks) = (cfg, some e) := by rw [← hB, h2]
      rw [Enviro_build_error x1 e1 hooks cfg e h1 h2,
        Enviro_build_error x2 e2 hooks cfg e h1b h2b]
  · have h1b : enviroHooks x2.HOOK_BEFORE_CONNECTING e2 = (hooks, some e) := by rw [← hH, h1]
    rw [Enviro_hook_error x1 e1 hooks e h1, Enviro_hook_error x2 e2 hooks e h1b]

/-- C10 (amended): the write delay is read from the variable named
`SSHWIFTY_WRITEELAY`.  For two environments that differ only in the value of
`SSHWIFTY_WRITEDELAY`, with no value redirecting to `SSHWIFTY_WRITEDELAY`
through the marker, everything the loader itself reads is the same: the hook
table and its decode error, the common and the server field bag, the trimmed
presets text.  So with collaborators `ext e` (as they behave in the environment
`e`) that give the same results in the two environments on what the loader
hands them, the loader returns the same label, configuration and error.  The
write delay handed to the server field bag is the 32-bit coercion of the
resolved value of `SSHWIFTY_WRITEELAY`. -/
theorem writeDelay_variable {H R P S : Type} (ext : Env → Externals H R P S) (e1 e2 : Env)
    (hdiff : ∀ n : String, n ≠ "SSHWIFTY_WRITEDELAY" → e1 n = e2 n)
    (hred : ∀ n : String, e1 n ≠ renamedMarker ++ "SSHWIFTY_WRITEDELAY") :
    (∀ k : H, enviroHooks k e1 = enviroHooks k e2) ∧
    (∀ hooks : HookTable H, (enviroCommon e1 hooks : fileCfgCommon H R) = enviroCommon e2 hooks) ∧
    enviroServer e1 = enviroServer e2 ∧
    TrimSpace (parseEnv e1 "SSHWIFTY_PRESETS") = TrimSpace (parseEnv e2 "SSHWIFTY_PRESETS") ∧
    ((ext e1).HOOK_BEFORE_CONNECTING = (ext e2).HOOK_BEFORE_CONNECTING →
      (ext e1).commonBuild
          (enviroCommon e1 (enviroHooks (ext e1).HOOK_BEFORE_CONNECTING e1).1) =
        (ext e2).commonBuild
          (enviroCommon e1 (enviroHooks (ext e1).HOOK_BEFORE_CONNECTING e1).1) →
      (ext e1).unmarshalPresets (TrimSpace (parseEnv e1 "SSHWIFTY_PRESETS")) =
        (ext e2).unmarshalPresets (TrimSpace (parseEnv e1 "SSHWIFTY_PRESETS")) →
      (ext e1).concretize (enviroPresets (ext e1) e1).1 =
        (ext e2).concretize (enviroPresets (ext e1) e1).1 →
      (ext e1).serverBuild (enviroServer e1) = (ext e2).serverBuild (enviroServer e1) →
      Enviro (ext e1) e1 = Enviro (ext e2) e2) ∧
    (enviroServer e1).WriteDelay =
      ((ParseUint (parseEnv e1 "SSHWIFTY_WRITEELAY") 32).1 : Int) ∧
    CoercedFrom 32 (parseEnv e1 "SSHWIFTY_WRITEELAY")
      (ParseUint (parseEnv e1 "SSHWIFTY_WRITEELAY") 32).1 := by
  have hp : ∀ name : String, name ≠ "SSHWIFTY_WRITEDELAY" →
      parseEnv e1 name = parseEnv e2 name := fun name hname =>
    parseEnv_congr e1 e2 "SSHWIFTY_WRITEDELAY" name hdiff hred hname
  obtain ⟨hH, hC, hS, hT⟩ := enviro_reads_congr e1 e2 hp
  refine ⟨fun k => hH k, fun hooks => hC hooks, hS, hT, ?_, ?_,
    ParseUint_coerced _ 32 (by norm_num) (by norm_num)⟩
  · intro hk hb hu hc hs
    have hP : enviroPresets (ext e1) e1 = enviroPresets (ext e2) e2 := by
      simp only [enviroPresets, ← hT, hu]
    apply Enviro_congr (ext e1) (ext e2) e1 e2
    · rw [← hk]; exact hH _
    · rw [← hC]; exact hb
    · exact hP
    · exact hc
    · rw [← hS]; exact hs
  · exact intOfUint64_of_lt _ (ParseUint_lt _ 32 (by norm_num) (by norm_num))

/-- C10 at two environments that differ in `SSHWIFTY_WRITEDELAY` only, with a
concretizer that reads the environment and a preset that names
`SSHWIFTY_HOSTNAME`: the loader returns the same result. -/
theorem writeDelay_variable_witness :
    Enviro
        (referenceExternals
          (fun n => if n = "SSHWIFTY_WRITEDELAY" then "5"
          else if n = "SSHWIFTY_PRESETS" then "[\"SSHWIFTY_HOSTNAME\"]"
          else if n = "SSHWIFTY_HOSTNAME" then "example.org" else ""))
        (fun n => if n = "SSHWIFTY_WRITEDELAY" then "5"
          else if n = "SSHWIFTY_PRESETS" then "[\"SSHWIFTY_HOSTNAME\"]"
          else if n = "SSHWIFTY_HOSTNAME" then "example.org" else "") =
      Enviro
        (referenceExternals
          (fun n => if n = "SSHWIFTY_WRITEDELAY" then "9"
          else if n = "SSHWIFTY_PRESETS" then "[\"SSHWIFTY_HOSTNAME\"]"
          else if n = "SSHWIFTY_HOSTNAME" then "example.org" else ""))
        (fun n => if n = "SSHWIFTY_WRITEDELAY" then "9"
          else if n = "SSHWIFTY_PRESETS" then "[\"SSHWIFTY_HOSTNAME\"]"
          else if n = "SSHWIFTY_HOSTNAME" then "example.org" else "") :=
  (writeDelay_variable referenceExternals
    (fun n => if n = "SSHWIFTY_WRITEDELAY" then "5"
          else if n = "SSHWIFTY_PRESETS" then "[\"SSHWIFTY_HOSTNAME\"]"
          else if n = "SSHWIFTY_HOSTNAME" then "example.org" else "")
    (fun n => if n = "SSHWIFTY_WRITEDELAY" then "9"
          else if n = "SSHWIFTY_PRESETS" then "[\"SSHWIFTY_HOSTNAME\"]"
          else if n = "SSHWIFTY_HOSTNAME" then "example.org" else "")
    (fun n hn => by simp only [if_neg hn])
    (fun n => by
      by_cases h1 : n = "SSHWIFTY_WRITEDELAY"
      · simp only [if_pos h1]; decide
      · by_cases h2 : n = "SSHWIFTY_PRESETS"
        · simp only [if_neg h1, if_pos h2]; decide
        · by_cases h3 : n = "SSHWIFTY_HOSTNAME"
          · simp only [if_neg h1, if_neg h2, if_pos h3]; decide
          · simp only [if_neg h1, if_neg h2, if_neg h3]; decide)).2.2.2.2.1
    rfl rfl rfl (by decide) rfl

/-- C10, as stated, fails once a collaborator reads the environment: the two
environments differ only in the value of `SSHWIFTY_WRITEDELAY` and no value
redirects to it, yet with a concretizer that resolves the preset naming
`SSHWIFTY_WRITEDELAY` the loader returns different presets. -/
theorem writeDelay_concretizer_reads_environment :
    (∀ n : String, n ≠ "SSHWIFTY_WRITEDELAY" →
      (fun n => if n = "SSHWIFTY_WRITEDELAY" then "5"
          else if n = "SSHWIFTY_PRESETS" then "[\"SSHWIFTY_WRITEDELAY\"]"
          else if n = "SSHWIFTY_HOSTNAME" then "example.org" else "") n =
      (fun n => if n = "SSHWIFTY_WRITEDELAY" then "9"
          else if n = "SSHWIFTY_PRESETS" then "[\"SSHWIFTY_WRITEDELAY\"]"
          else if n = "SSHWIFTY_HOSTNAME" then "example.org" else "") n) ∧
    (∀ n : String,
      (fun n => if n = "SSHWIFTY_WRITEDELAY" then "5"
          else if n = "SSHWIFTY_PRESETS" then "[\"SSHWIFTY_WRITEDELAY\"]"
          else if n = "SSHWIFTY_HOSTNAME" then "example.org" else "") n ≠
        renamedMarker ++ "SSHWIFTY_WRITEDELAY" ∧
      (fun n => if n = "SSHWIFTY_WRITEDELAY" then "9"
          else if n = "SSHWIFTY_PRESETS" then "[\"SSHWIFTY_WRITEDELAY\"]"
          else if n = "SSHWIFTY_HOSTNAME" then "example.org" else "") n ≠
        renamedMarker ++ "SSHWIFTY_WRITEDELAY") ∧
    (Enviro
        (referenceExternals
          (fun n => if n = "SSHWIFTY_WRITEDELAY" then "5"
          else if n = "SSHWIFTY_PRESETS" then "[\"SSHWIFTY_WRITEDELAY\"]"
          else if n = "SSHWIFTY_HOSTNAME" then "example.org" else ""))
        (fun n => if n = "SSHWIFTY_WRITEDELAY" then "5"
          else if n = "SSHWIFTY_PRESETS" then "[\"SSHWIFTY_WRITEDELAY\"]"
          else if n = "SSHWIFTY_HOSTNAME" then "example.org" else "")).2.1.Presets = ["5"] ∧
    (Enviro
        (referenceExternals
          (fun n => if n = "SSHWIFTY_WRITEDELAY" then "9"
          else if n = "SSHWIFTY_PRESETS" then "[\"SSHWIFTY_WRITEDELAY\"]"
          else if n = "SSHWIFTY_HOSTNAME" then "example.org" else ""))
        (fun n => if n = "SSHWIFTY_WRITEDELAY" then "9"
          else if n = "SSHWIFTY_PRESETS" then "[\"SSHWIFTY_WRITEDELAY\"]"
          else if n = "SSHWIFTY_HOSTNAME" then "example.org" else "")).2.1.Presets = ["9"] ∧
    Enviro
        (referenceExternals
          (fun n => if n = "SSHWIFTY_WRITEDELAY" then "5"
          else if n = "SSHWIFTY_PRESETS" then "[\"SSHWIFTY_WRITEDELAY\"]"
          else if n = "SSHWIFTY_HOSTNAME" then "example.org" else ""))
        (fun n => if n = "SSHWIFTY_WRITEDELAY" then "5"
          else if n = "SSHWIFTY_PRESETS" then "[\"SSHWIFTY_WRITEDELAY\"]"
          else if n = "SSHWIFTY_HOSTNAME" then "example.org" else "") ≠
      Enviro
        (referenceExternals
          (fun n => if n = "SSHWIFTY_WRITEDELAY" then "9"
          else if n = "SSHWIFTY_PRESETS" then "[\"SSHWIFTY_WRITEDELAY\"]"
          else if n = "SSHWIFTY_HOSTNAME" then "example.org" else ""))
        (fun n => if n = "SSHWIFTY_WRITEDELAY" then "9"
          else if n = "SSHWIFTY_PRESETS" then "[\"SSHWIFTY_WRITEDELAY\"]"
          else if n = "SSHWIFTY_HOSTNAME" then "example.org" else "") := by
  refine ⟨fun n hn => by simp only [if_neg hn], ?_, by decide, by decide, by decide⟩
  intro n
  by_cases h1 : n = "SSHWIFTY_WRITEDELAY"
  · simp only [if_pos h1]; decide
  · by_cases h2 : n = "SSHWIFTY_PRESETS"
    · simp only [if_neg h1, if_pos h2]; decide
    · by_cases h3 : n = "SSHWIFTY_HOSTNAME"
      · simp only [if_neg h1, if_neg h2, if_pos h3]; decide
      · simp only [if_neg h1, if_neg h2, if_neg h3]; decide

end Sshwifty
